import Mathlib

/-!
# Verification of the CraveCrafted order/subscription core

Shallow embedding of the order model (`Models/Order`, source file part_009),
the order controller (`Controllers/orderController`, source file part_003) and
the recurring-billing cron job (source file part_001).

Conventions of the embedding:
* JavaScript numbers are modelled as `Rat` (quantities, prices) or `Nat`
  (identifiers, billing cycles, timestamps in milliseconds).
* JavaScript `undefined`/`null` is modelled with `Option`; JS truthiness of a
  string/number is `truthyStr`/`truthyNum` (empty string and `0` are falsy).
* `new Date()` is modelled by an explicit `now : Nat` parameter threaded into
  every operation; `Date.toISOString()` is modelled by `toString now`.
* The Mongo collection of orders is a `Store := List Order`;
  `Model.findById`/`findOne`/`create`/`save`/`deleteOne` are `findById`,
  `findBySubId`, appending with a fresh id, `saveOrder` and `eraseById`.
* The mongoose pre-save hook (part_009 lines 273-300) writes only
  `nextBillingDate` on newly created subscriptions, using calendar month
  arithmetic; no claim below depends on the value of `nextBillingDate` of a
  freshly created order, so the embedding leaves `nextBillingDate` as given
  by the order data.
-/

/-- JS truthiness of an optional string: `undefined`, `null` and `""` are falsy. -/
def truthyStr : Option String → Bool
  | none => false
  | some s => s ≠ ""

/-- JS truthiness of an optional number: `undefined`, `null` and `0` are falsy. -/
def truthyNum : Option Rat → Bool
  | none => false
  | some q => q ≠ 0

/-- JS `x || d` for an optional string (empty string falls back to the default). -/
def jsOrStr (x : Option String) (d : String) : String :=
  match x with
  | none => d
  | some s => if s = "" then d else s

/-- JS `x || d` for an optional natural number (`0` falls back to the default). -/
def jsOrNat (x : Option Nat) (d : Nat) : Nat :=
  match x with
  | none => d
  | some n => if n = 0 then d else n

/-- JS `x || d` for an optional rational (`0` falls back to the default). -/
def jsOrRat (x : Option Rat) (d : Rat) : Rat :=
  match x with
  | none => d
  | some q => if q = 0 then d else q

/-- JS `Math.round` (round half toward positive infinity). -/
def jsRound (q : Rat) : Rat := ((q + 1/2).floor : Int)

/-- JS `String.prototype.toLowerCase` (ASCII letters suffice here). -/
def jsToLower (s : String) : String := String.mk (s.toList.map Char.toLower)

/-- JS `cardNumber.replace(/\s/g, '')` (drop spaces). -/
def stripSpaces (s : String) : String := String.mk (s.toList.filter (· ≠ ' '))

/-- JS `s.slice(-4)`. -/
def lastFour (s : String) : String := String.mk ((s.toList.reverse.take 4).reverse)

/-! ## Data model (orderSchema, source part_009) -/

/-- One entry of `statusHistory` (part_009 lines 220-247). -/
structure StatusEntry where
  status : String
  timestamp : Nat
  note : String
  updatedBy : Option String
deriving Repr, DecidableEq

/-- One entry of `paymentHistory` (part_009 lines 134-145).
`metadata` (schema type Mixed) is modelled as a string-keyed association list. -/
structure PaymentEntry where
  paymentId : Option String
  amount : Rat
  currency : String
  status : String
  billingCycle : Nat
  paidAt : Nat
  stripeInvoiceId : Option String
  stripePaymentIntentId : Option String
  failureReason : Option String
  metadata : List (String × String)
deriving Repr, DecidableEq

/-- An order line item (part_009 lines 10-22). -/
structure OrderItem where
  name : String
  quantity : Rat
  image : String
  price : Rat
  product : String
deriving Repr, DecidableEq

/-- The `shippingAddress` sub-document (part_009 lines 23-28). -/
structure ShippingAddress where
  address : String
  city : String
  postalCode : String
  country : String
deriving Repr, DecidableEq

/-- One entry of `selectedProducts` (part_009 lines 75-82). -/
structure SelectedProduct where
  productId : Option String := none
  title : Option String := none
  details : Option String := none
  imageUrl : Option String := none
  price : Option Rat := none
  quantity : Option Rat := none
deriving Repr, DecidableEq

/-- The `paymentIntent` sub-document (part_009 lines 120-125). -/
structure PaymentIntentInfo where
  id : Option String := none
  status : Option String := none
  clientSecret : Option String := none
  error : Option String := none
deriving Repr, DecidableEq

/-- The `paymentResult` sub-document (part_009 lines 126-131). -/
structure PaymentResult where
  id : String
  status : String
  updateTime : String
  emailAddress : String
deriving Repr, DecidableEq

/-- The `tracking` sub-document (part_009 lines 210-217). -/
structure TrackingInfo where
  trackingNumber : Option String := none
  courier : Option String := none
  estimatedDeliveryDate : Option Nat := none
  trackingUrl : Option String := none
  currentLocation : Option String := none
  notes : Option String := none
deriving Repr, DecidableEq

/-- An order document (part_009). `id` models Mongo `_id`; `user` holds the
owning user's id as a string. -/
structure Order where
  id : Nat
  user : String
  orderItems : List OrderItem := []
  shippingAddress : ShippingAddress
  paymentMethod : String := "stripe"
  paymentType : String := "online"
  isSubscription : Bool := false
  subscriptionType : Option String := none
  subscriptionName : Option String := none
  subscriptionPrice : Rat := 0
  maxProducts : Nat := 0
  recurrence : Option String := none
  recurrenceLabel : Option String := none
  selectedProducts : List SelectedProduct := []
  nextBillingDate : Option Nat := none
  subscriptionStatus : String := "active"
  billingCycle : Nat := 1
  totalBillingCycles : Option Nat := none
  currentBillingCycle : Nat := 1
  stripeSubscriptionId : Option String := none
  stripeCustomerId : Option String := none
  stripePriceId : Option String := none
  paymentIntent : PaymentIntentInfo := {}
  paymentResult : Option PaymentResult := none
  paymentHistory : List PaymentEntry := []
  itemsPrice : Rat := 0
  taxPrice : Rat := 0
  shippingPrice : Rat := 0
  totalPrice : Rat := 0
  isPaid : Bool := false
  paidAt : Option Nat := none
  isDelivered : Bool := false
  deliveredAt : Option Nat := none
  status : String := "Pending"
  tracking : TrackingInfo := {}
  statusHistory : List StatusEntry := []
  cancellationReason : Option String := none
  cancelledBy : Option String := none
  cancelledAt : Option Nat := none
  returnReason : Option String := none
  returnRequestedAt : Option Nat := none
  notes : Option String := none
deriving Repr, DecidableEq

/-- Method `orderSchema.methods.addStatusToHistory` (part_009 lines 303-311): pushes a
history entry and sets the order's current status. -/
def Order.addStatusToHistory (o : Order) (status : String) (note : String)
    (updatedBy : Option String) (now : Nat) : Order :=
  { o with
    statusHistory := o.statusHistory ++
      [{ status := status, timestamp := now, note := note, updatedBy := updatedBy }]
    status := status }

/-- Argument object for `addPaymentToHistory`. -/
structure PaymentData where
  paymentId : Option String := none
  amount : Rat
  currency : Option String := none
  status : String
  billingCycle : Option Nat := none
  paidAt : Option Nat := none
  stripeInvoiceId : Option String := none
  stripePaymentIntentId : Option String := none
  failureReason : Option String := none
  metadata : List (String × String) := []
deriving Repr, DecidableEq

/-- Method `orderSchema.methods.addPaymentToHistory` (part_009 lines 314-327): pushes a
payment entry; `billingCycle` defaults to the order's `currentBillingCycle`,
`currency` to `'usd'`, `paidAt` to `new Date()`. -/
def Order.addPaymentToHistory (o : Order) (p : PaymentData) (now : Nat) : Order :=
  { o with
    paymentHistory := o.paymentHistory ++
      [{ paymentId := p.paymentId
         amount := p.amount
         currency := p.currency.getD "usd"
         status := p.status
         billingCycle := p.billingCycle.getD o.currentBillingCycle
         paidAt := p.paidAt.getD now
         stripeInvoiceId := p.stripeInvoiceId
         stripePaymentIntentId := p.stripePaymentIntentId
         failureReason := p.failureReason
         metadata := p.metadata }] }

/-! ## The order record store -/

/-- The persisted collection of orders. -/
abbrev Store := List Order

/-- Query `Order.findById(id)`. -/
def findById (s : Store) (oid : Nat) : Option Order :=
  s.find? (fun o => o.id == oid)

/-- Query `Order.findOne` by `stripeSubscriptionId`. -/
def findBySubId (s : Store) (sid : String) : Option Order :=
  s.find? (fun o => o.stripeSubscriptionId == some sid)

/-- Persistence `order.save()`: write the (mutated) document back by id. -/
def saveOrder (s : Store) (o : Order) : Store :=
  s.map (fun x => if x.id = o.id then o else x)

/-- A fresh Mongo id for `Order.create`. -/
def freshId (s : Store) : Nat :=
  (s.map Order.id).foldr max 0 + 1

/-- Deletion `Order.deleteOne` by id: remove the first document with that id. -/
def eraseById (s : Store) (oid : Nat) : Store :=
  s.eraseP (fun o => o.id == oid)

/-! ## Inbound request and gateway boundary -/

/-- The `paymentDetails` of the createOrder request body (part_003 line 94). -/
structure PaymentDetailsReq where
  paymentMethodId : Option String := none
  cardNumber : Option String := none
  expiryMonth : Option String := none
  expiryYear : Option String := none
  cvc : Option String := none
  cardHolderName : Option String := none
deriving Repr, DecidableEq

/-- The `shippingAddress` of the request body. -/
structure ShippingAddressReq where
  address : Option String := none
  city : Option String := none
  postalCode : Option String := none
  country : Option String := none
deriving Repr, DecidableEq

/-- One element of `orderItems` of the request body. -/
structure OrderItemReq where
  name : Option String := none
  price : Option Rat := none
  quantity : Option Rat := none
  image : Option String := none
  product : Option String := none
deriving Repr, DecidableEq

/-- The createOrder request body (part_003 lines 8-29). -/
structure CreateOrderRequest where
  orderItems : Option (List OrderItemReq) := none
  shippingAddress : Option ShippingAddressReq := none
  paymentMethod : Option String := none
  itemsPrice : Option Rat := none
  taxPrice : Option Rat := none
  shippingPrice : Option Rat := none
  totalPrice : Option Rat := none
  paymentDetails : Option PaymentDetailsReq := none
  notes : Option String := none
  isSubscription : Bool := false
  subscriptionType : Option String := none
  subscriptionName : Option String := none
  subscriptionPrice : Option Rat := none
  maxProducts : Option Nat := none
  recurrence : Option String := none
  recurrenceLabel : Option String := none
  selectedProducts : Option (List SelectedProduct) := none
  billingCycle : Option Nat := none
  totalBillingCycles : Option Nat := none
deriving Repr, DecidableEq

/-- An HTTP JSON response, restricted to the fields the claims observe. -/
structure HttpResp where
  statusCode : Nat
  success : Bool
  message : String
  clientSecret : Option String := none
  declineCode : Option String := none
  errorMsg : Option String := none
deriving Repr, DecidableEq

/-- Stripe error taxonomy as discriminated in part_003 lines 129-139. -/
inductive StripeErrKind where
  | cardError
  | invalidRequest
  | otherError
deriving Repr, DecidableEq

/-- An exception thrown by the Stripe client. -/
structure StripeError where
  kind : StripeErrKind
  message : String
  code : Option String := none
  declineCode : Option String := none
deriving Repr, DecidableEq

/-- The payment-intent object returned by
`stripe.paymentIntents.create/retrieve`. `metaOrderId` is `metadata.orderId`. -/
structure StripePaymentIntent where
  id : String
  status : String
  clientSecret : String := ""
  metaOrderId : Option Nat := none
deriving Repr, DecidableEq

/-- The argument of `stripe.paymentIntents.create` in createOneTimeOrder
(part_003 lines 589-613), restricted to the payment-relevant fields. -/
structure PaymentIntentParams where
  amount : Rat
  currency : String
  paymentMethod : String
  metaOrderId : Nat
deriving Repr, DecidableEq

/-- The `recurring` component of the Stripe price object. -/
structure PriceRecurring where
  interval : String
  intervalCount : Nat
deriving Repr, DecidableEq

/-- The argument of `stripe.prices.create` in createSubscriptionOrder
(part_003 lines 757-776), restricted to the payment-relevant fields. -/
structure PriceData where
  unitAmount : Rat
  currency : String
  recurring : PriceRecurring
  productName : String
deriving Repr, DecidableEq

/-- The combined result of the gateway calls made by createSubscriptionOrder
(customer resolution, payment-method attach, price and subscription creation). -/
structure SubGatewayOk where
  customerId : String
  priceId : String
  subscriptionId : String
  latestInvoiceId : Option String := none
  latestInvoicePaymentIntentId : Option String := none
deriving Repr, DecidableEq

/-- Gateway behaviour for one-time creation: the order's single
`paymentIntents.create` call either returns an intent or throws. -/
abbrev OneTimeGateway := PaymentIntentParams → Except StripeError StripePaymentIntent

/-- Gateway behaviour for subscription creation: the sequence of Stripe calls,
keyed by the price object sent, either all succeed or some call throws. -/
abbrev SubGateway := PriceData → Except StripeError SubGatewayOk

/-! ## createOrder validation (part_003 lines 31-101) -/

/-- The per-item validation loop (part_003 lines 62-75): returns the first
error message, if any. -/
def findItemError : List OrderItemReq → Option String
  | [] => none
  | item :: rest =>
    if !(truthyStr item.name && truthyNum item.price && truthyNum item.quantity
          && truthyStr item.product) then
      some "Each order item must have name, price, quantity, and product ID"
    else if item.quantity.getD 0 ≤ 0 then
      some "Order item quantity must be greater than 0"
    else findItemError rest

/-- The sequential validation checks of createOrder (part_003 lines 31-101),
returning the first 400 message, or `none` when every check passes. -/
def validateCreateOrder (req : CreateOrderRequest) : Option String :=
  match req.orderItems with
  | none => some "No order items provided"
  | some items =>
    if items.length = 0 then some "No order items provided"
    else
      match req.shippingAddress with
      | none => some "Complete shipping address is required"
      | some addr =>
        if !(truthyStr addr.address && truthyStr addr.city
              && truthyStr addr.postalCode) then
          some "Complete shipping address is required"
        else if !(truthyStr req.paymentMethod)
            || !(["stripe", "card"].contains (jsToLower (req.paymentMethod.getD ""))) then
          some "Only Stripe/Card payment method is supported"
        else if !(truthyNum req.totalPrice) || req.totalPrice.getD 0 ≤ 0 then
          some "Total price must be greater than 0"
        else
          match findItemError items with
          | some msg => some msg
          | none =>
            if req.isSubscription
                && !(truthyStr req.subscriptionType && truthyStr req.subscriptionName
                      && truthyStr req.recurrence) then
              some "Subscription type, name, and recurrence are required for subscription orders"
            else
              match req.paymentDetails with
              | none => some "Payment details are required"
              | some pd =>
                if !(truthyStr pd.cardNumber && truthyStr pd.expiryMonth
                      && truthyStr pd.expiryYear && truthyStr pd.cvc) then
                  some "Card number, expiry month, expiry year, and CVC are required"
                else none

/-! ## Order creation orchestration (part_003 lines 6-157 and 549-907) -/

/-- Convert a validated request item into the stored line item. -/
def toOrderItem (i : OrderItemReq) : OrderItem :=
  { name := i.name.getD ""
    quantity := i.quantity.getD 0
    image := i.image.getD ""
    price := i.price.getD 0
    product := i.product.getD "" }

/-- Convert the request shipping address into the stored sub-document. -/
def toShippingAddress (a : Option ShippingAddressReq) : ShippingAddress :=
  match a with
  | none => { address := "", city := "", postalCode := "", country := "" }
  | some a =>
    { address := a.address.getD ""
      city := a.city.getD ""
      postalCode := a.postalCode.getD ""
      country := a.country.getD "" }

/-- Helper `cleanCardNumber` (part_003 line 558): strip spaces, with the test-card
fallback when the card number is falsy. -/
def cleanCardNumber (pd : PaymentDetailsReq) : String :=
  if truthyStr pd.cardNumber then stripSpaces (pd.cardNumber.getD "")
  else "4242424242424242"

/-- The `orderDbData` persisted by createOneTimeOrder before any gateway call
(part_003 lines 561-580): a `Pending` order with one history entry. -/
def pendingOneTimeOrder (req : CreateOrderRequest) (userId : String)
    (newId now : Nat) : Order :=
  { id := newId
    user := userId
    orderItems := (req.orderItems.getD []).map toOrderItem
    shippingAddress := toShippingAddress req.shippingAddress
    paymentMethod := jsToLower (req.paymentMethod.getD "")
    itemsPrice := req.itemsPrice.getD 0
    taxPrice := req.taxPrice.getD 0
    shippingPrice := req.shippingPrice.getD 0
    totalPrice := req.totalPrice.getD 0
    status := "Pending"
    notes := req.notes
    isSubscription := false
    paymentType := "online"
    statusHistory := [{ status := "Pending", timestamp := now,
                        note := "Order placed successfully", updatedBy := some userId }] }

/-- The argument of `stripe.paymentIntents.create` (part_003 lines 589-613). -/
def oneTimePaymentIntentParams (req : CreateOrderRequest) (oid : Nat) : PaymentIntentParams :=
  { amount := jsRound (req.totalPrice.getD 0 * 100)
    currency := "usd"
    paymentMethod := jsOrStr ((req.paymentDetails.getD ({} : PaymentDetailsReq)).paymentMethodId) "pm_card_visa"
    metaOrderId := oid }

/-- Record the created payment intent on the order (part_003 lines 618-622). -/
def oneTimeIntentApplied (o : Order) (pi : StripePaymentIntent) : Order :=
  { o with
    paymentIntent := { id := some pi.id, status := some pi.status,
                       clientSecret := some pi.clientSecret, error := none } }

/-- The mutations of the `succeeded` branch of createOneTimeOrder
(part_003 lines 625-655): confirm the order, record the payment result and
append the payment to history. -/
def oneTimeSucceededUpdate (o1 : Order) (pi : StripePaymentIntent)
    (req : CreateOrderRequest) (userId userEmail : String) (now : Nat) : Order :=
  let o2 := { o1 with
    isPaid := true
    paidAt := some now
    status := "Payment_Confirmed"
    statusHistory := o1.statusHistory ++
      [({ status := "Payment_Confirmed", timestamp := now,
          note := "Online payment completed successfully",
          updatedBy := some userId } : StatusEntry)]
    paymentResult := some { id := pi.id, status := pi.status,
                            updateTime := toString now, emailAddress := userEmail } }
  o2.addPaymentToHistory
    { paymentId := some pi.id
      amount := req.totalPrice.getD 0
      currency := some "usd"
      status := "succeeded"
      billingCycle := some 1
      stripePaymentIntentId := some pi.id
      metadata := [("cardLast4",
                    lastFour (cleanCardNumber (req.paymentDetails.getD ({} : PaymentDetailsReq)))),
                   ("paymentMethod", "stripe")] } now

/-- The mutations of the declined branch of createOneTimeOrder (part_003
lines 687-695): push a `Payment_Failed` history entry and record the intent
status — note `order.status` itself is NOT updated. -/
def oneTimeDeclinedUpdate (o1 : Order) (pi : StripePaymentIntent)
    (userId : String) (now : Nat) : Order :=
  { o1 with
    statusHistory := o1.statusHistory ++
      [{ status := "Payment_Failed", timestamp := now,
         note := "Payment was declined or failed", updatedBy := some userId }]
    paymentIntent := { o1.paymentIntent with status := some pi.status } }

/-- createOneTimeOrder (part_003 lines 549-708). Returns the store after the
handler and either the HTTP response or the Stripe exception that propagated
to the caller's catch block. The `Pending` order is persisted before the
gateway call; on `succeeded` the order is confirmed, on `requires_action` it
is saved as-is, and on any other intent status a `Payment_Failed` history
entry is pushed (note: the source pushes directly to `statusHistory` without
updating `order.status`, see lines 687-695). -/
def createOneTimeOrder (s : Store) (req : CreateOrderRequest)
    (userId userEmail : String) (gw : OneTimeGateway) (now : Nat) :
    Store × Except StripeError HttpResp :=
  let order0 := pendingOneTimeOrder req userId (freshId s) now
  let s1 := s ++ [order0]
  match gw (oneTimePaymentIntentParams req order0.id) with
  | .error e => (s1, .error e)
  | .ok pi =>
    let o1 := oneTimeIntentApplied order0 pi
    if pi.status = "succeeded" then
      (saveOrder s1 (oneTimeSucceededUpdate o1 pi req userId userEmail now),
       .ok { statusCode := 201, success := true,
             message := "Order created and payment completed successfully!" })
    else if pi.status = "requires_action" then
      (saveOrder s1 o1,
       .ok { statusCode := 201, success := true,
             message := "Order created, additional authentication required",
             clientSecret := some pi.clientSecret })
    else
      (saveOrder s1 (oneTimeDeclinedUpdate o1 pi userId now),
       .ok { statusCode := 400, success := false, message := "Payment failed" })

/-- getStripeInterval (part_003 lines 883-896). -/
def getStripeInterval (recurrence : String) : String :=
  if recurrence = "weekly" then "week"
  else if recurrence = "biweekly" then "week"
  else if recurrence = "monthly" then "month"
  else if recurrence = "quarterly" then "month"
  else "month"

/-- The `priceData` sent to `stripe.prices.create` (part_003 lines 757-776):
`interval` comes from getStripeInterval, `interval_count` is `billingCycle || 1`. -/
def subscriptionPriceData (req : CreateOrderRequest) : PriceData :=
  { unitAmount := jsRound (jsOrRat req.subscriptionPrice (req.totalPrice.getD 0) * 100)
    currency := "usd"
    recurring := { interval := getStripeInterval (req.recurrence.getD "")
                   intervalCount := jsOrNat req.billingCycle 1 }
    productName := req.subscriptionName.getD "" }

/-- The `orderDbData` persisted by createSubscriptionOrder after all gateway
calls succeed (part_003 lines 802-838). -/
def subscriptionAnchorOrder (req : CreateOrderRequest) (userId : String)
    (g : SubGatewayOk) (newId now : Nat) : Order :=
  { id := newId
    user := userId
    orderItems := (req.orderItems.getD []).map toOrderItem
    shippingAddress := toShippingAddress req.shippingAddress
    paymentMethod := jsToLower (req.paymentMethod.getD "")
    itemsPrice := req.itemsPrice.getD 0
    taxPrice := req.taxPrice.getD 0
    shippingPrice := req.shippingPrice.getD 0
    totalPrice := req.totalPrice.getD 0
    status := "Payment_Confirmed"
    notes := req.notes
    isSubscription := true
    subscriptionType := req.subscriptionType
    subscriptionName := req.subscriptionName
    subscriptionPrice := jsOrRat req.subscriptionPrice (req.totalPrice.getD 0)
    maxProducts := req.maxProducts.getD 0
    recurrence := req.recurrence
    recurrenceLabel := req.recurrenceLabel
    selectedProducts := req.selectedProducts.getD []
    billingCycle := jsOrNat req.billingCycle 1
    totalBillingCycles := req.totalBillingCycles
    currentBillingCycle := 1
    subscriptionStatus := "active"
    paymentType := "online"
    isPaid := true
    paidAt := some now
    stripeSubscriptionId := some g.subscriptionId
    stripeCustomerId := some g.customerId
    stripePriceId := some g.priceId
    statusHistory := [{ status := "Payment_Confirmed", timestamp := now,
                        note := "Subscription order created and first payment processed",
                        updatedBy := some userId }] }

/-- createSubscriptionOrder (part_003 lines 711-880). All Stripe calls happen
before `Order.create`, so a throwing gateway leaves the store untouched; on
success the anchor order is persisted, the initial payment is appended to its
`paymentHistory` (billing cycle 1) and the order is saved. -/
def createSubscriptionOrder (s : Store) (req : CreateOrderRequest)
    (userId : String) (gw : SubGateway) (now : Nat) :
    Store × Except StripeError HttpResp :=
  let pd := req.paymentDetails.getD ({} : PaymentDetailsReq)
  match gw (subscriptionPriceData req) with
  | .error e => (s, .error e)
  | .ok g =>
    let order0 := subscriptionAnchorOrder req userId g (freshId s) now
    let s1 := s ++ [order0]
    let o1 := order0.addPaymentToHistory
      { paymentId := some (jsOrStr g.latestInvoicePaymentIntentId g.subscriptionId)
        amount := jsOrRat req.subscriptionPrice (req.totalPrice.getD 0)
        currency := some "usd"
        status := "succeeded"
        billingCycle := some 1
        stripeInvoiceId := g.latestInvoiceId
        stripePaymentIntentId := g.latestInvoicePaymentIntentId
        metadata := [("cardLast4", lastFour (stripSpaces (pd.cardNumber.getD ""))),
                     ("paymentMethod", "stripe"),
                     ("subscriptionId", g.subscriptionId)] } now
    (saveOrder s1 o1,
     .ok { statusCode := 201, success := true,
           message := "Subscription created successfully! Automatic billing has been set up." })

/-- The catch block of createOrder for Stripe exceptions (part_003
lines 123-147): always a structured 400 response. -/
def stripeErrorResponse (e : StripeError) : HttpResp :=
  match e.kind with
  | .cardError =>
    { statusCode := 400, success := false, message := "Your card was declined",
      errorMsg := some e.message, declineCode := e.declineCode }
  | .invalidRequest =>
    { statusCode := 400, success := false, message := "Payment configuration error",
      errorMsg := some e.message }
  | .otherError =>
    { statusCode := 400, success := false, message := "Payment processing failed",
      errorMsg := some e.message }

/-- Outcome of the createOrder route handler: the resulting store, the HTTP
response, and whether the payment gateway was invoked at all. -/
structure CreateOutcome where
  store : Store
  resp : HttpResp
  gatewayCalled : Bool
deriving Repr, DecidableEq

/-- createOrder (part_003 lines 6-157): validation, then dispatch to the
subscription or one-time helper, with Stripe exceptions converted into a 400
response by the inner catch block. -/
def createOrder (s : Store) (req : CreateOrderRequest) (userId userEmail : String)
    (oneTimeGw : OneTimeGateway) (subGw : SubGateway) (now : Nat) : CreateOutcome :=
  match validateCreateOrder req with
  | some msg =>
    { store := s, resp := { statusCode := 400, success := false, message := msg },
      gatewayCalled := false }
  | none =>
    if req.isSubscription then
      match createSubscriptionOrder s req userId subGw now with
      | (s2, .ok r) => { store := s2, resp := r, gatewayCalled := true }
      | (s2, .error e) =>
        { store := s2, resp := stripeErrorResponse e, gatewayCalled := true }
    else
      match createOneTimeOrder s req userId userEmail oneTimeGw now with
      | (s2, .ok r) => { store := s2, resp := r, gatewayCalled := true }
      | (s2, .error e) =>
        { store := s2, resp := stripeErrorResponse e, gatewayCalled := true }

/-! ## Admin/customer order operations (part_003 lines 1106-1493, 1811-1874, 1984-2222) -/

/-- The list of valid statuses accepted by updateOrderStatus (part_003
lines 1116-1120). -/
def validStatuses : List String :=
  ["Pending", "Payment_Confirmed", "Processing", "Ready_to_Ship",
   "Shipped", "Out_for_Delivery", "Delivered", "Cancelled",
   "Payment_Failed", "Returned", "Refunded"]

/-- Request body of updateOrderStatus. -/
structure UpdateStatusRequest where
  status : Option String := none
  note : Option String := none
  trackingNumber : Option String := none
  courier : Option String := none
  estimatedDeliveryDate : Option Nat := none
deriving Repr, DecidableEq

/-- The `Delivered` side effect of updateOrderStatus (part_003 lines
1157-1160): when the new status is `Delivered` and the order was not yet
delivered, set `isDelivered` and `deliveredAt`. -/
def applyDeliveredUpdate (o : Order) (cond : Bool) (now : Nat) : Order :=
  if cond then { o with isDelivered := true, deliveredAt := some now } else o

/-- The tracking-field updates of updateOrderStatus (part_003 lines
1162-1165). -/
def applyTrackingUpdates (o : Order) (req : UpdateStatusRequest) : Order :=
  let o1 :=
    if truthyStr req.trackingNumber then
      { o with tracking := { o.tracking with trackingNumber := req.trackingNumber } }
    else o
  let o2 :=
    if truthyStr req.courier then
      { o1 with tracking := { o1.tracking with courier := req.courier } }
    else o1
  match req.estimatedDeliveryDate with
  | some d => { o2 with tracking := { o2.tracking with estimatedDeliveryDate := some d } }
  | none => o2

/-- updateOrderStatus (part_003 lines 1106-1188), acting on a found order:
status validation, the cancelled-subscription guard, then
`addStatusToHistory`, the `Delivered` side effect and tracking updates. -/
def updateOrderStatus (o : Order) (req : UpdateStatusRequest) (actor : String)
    (now : Nat) : Order × HttpResp :=
  match req.status with
  | none => (o, { statusCode := 400, success := false, message := "Status is required" })
  | some st =>
    if !(validStatuses.contains st) then
      (o, { statusCode := 400, success := false, message := "Invalid status" })
    else if o.isSubscription && o.subscriptionStatus = "cancelled" then
      (o, { statusCode := 400, success := false,
            message := "Cannot update status for a subscription that has been cancelled by the user. The subscription must be reactivated first." })
    else
      let o1 := o.addStatusToHistory st
        (req.note.getD ("Status updated to " ++ st)) (some actor) now
      (applyTrackingUpdates (applyDeliveredUpdate o1 (st = "Delivered" && !o.isDelivered) now) req,
       { statusCode := 200, success := true,
         message := "Order status updated to " ++ st })

/-- cancelOrder (part_003 lines 1278-1356), acting on a found order.
`subUpdateOk` models whether `stripe.subscriptions.update` succeeds (its
failure is swallowed and only skips setting `subscriptionStatus`); the
payment-intent cancellation never mutates the local order. -/
def cancelOrder (o : Order) (reason : Option String) (reqUserId : String)
    (isAdmin : Bool) (subUpdateOk : Bool) (now : Nat) : Order × HttpResp :=
  if o.user ≠ reqUserId && !isAdmin then
    (o, { statusCode := 403, success := false,
          message := "Not authorized to cancel this order" })
  else if ["Shipped", "Out_for_Delivery", "Delivered"].contains o.status then
    (o, { statusCode := 400, success := false,
          message := "Cannot cancel shipped, out for delivery, or delivered orders" })
  else
    let o1 :=
      if o.isSubscription && o.stripeSubscriptionId.isSome && subUpdateOk then
        { o with subscriptionStatus := "cancelled" }
      else o
    let o2 := o1.addStatusToHistory "Cancelled"
      (jsOrStr reason "Order cancelled by user") (some reqUserId) now
    let o3 := { o2 with cancellationReason := reason, cancelledBy := some reqUserId,
                        cancelledAt := some now }
    (o3, { statusCode := 200, success := true, message := "Order cancelled successfully" })

/-- deleteOrder (part_003 lines 1359-1422) on the store: only orders in a
terminal-failure status may be deleted; otherwise the store is untouched. -/
def deleteOrder (s : Store) (oid : Nat) : Store × HttpResp :=
  match findById s oid with
  | none => (s, { statusCode := 404, success := false, message := "Order not found" })
  | some o =>
    if !(["Cancelled", "Payment_Failed", "Refunded"].contains o.status) then
      (s, { statusCode := 400, success := false,
            message := "Only cancelled, failed, or refunded orders can be deleted" })
    else
      (eraseById s oid,
       { statusCode := 200, success := true, message := "Order deleted successfully" })

/-- initiateReturn (part_003 lines 1811-1874), acting on a found order: only
the owner may return, only `Delivered` orders, within 30 days of delivery. -/
def initiateReturn (o : Order) (reason : String) (reqUserId : String)
    (now : Nat) : Order × HttpResp :=
  if o.user ≠ reqUserId then
    (o, { statusCode := 403, success := false,
          message := "Not authorized to return this order" })
  else if o.status ≠ "Delivered" then
    (o, { statusCode := 400, success := false,
          message := "Only delivered orders can be returned" })
  else if (match o.deliveredAt with
           | some d => decide ((now - d) / 86400000 > 30)
           | none => false) then
    (o, { statusCode := 400, success := false, message := "Return window has expired" })
  else
    let o1 := o.addStatusToHistory "Returned" ("Return requested: " ++ reason)
      (some reqUserId) now
    let o2 := { o1 with returnReason := some reason, returnRequestedAt := some now }
    (o2, { statusCode := 200, success := true,
           message := "Return request initiated successfully" })

/-- pauseSubscription (part_003 lines 1984-2063), acting on a found order.
`stripeOk` models the `stripe.subscriptions.update` pause call; its failure
aborts with a 400 before any local mutation. -/
def pauseSubscription (o : Order) (reason : Option String) (reqUserId : String)
    (stripeOk : Bool) (now : Nat) : Order × HttpResp :=
  if o.user ≠ reqUserId then
    (o, { statusCode := 403, success := false,
          message := "Not authorized to pause this subscription" })
  else if !o.isSubscription then
    (o, { statusCode := 400, success := false, message := "This is not a subscription order" })
  else if o.subscriptionStatus ≠ "active" then
    (o, { statusCode := 400, success := false,
          message := "Only active subscriptions can be paused" })
  else if o.stripeSubscriptionId.isSome && !stripeOk then
    (o, { statusCode := 400, success := false,
          message := "Error pausing subscription with Stripe" })
  else
    let o1 := { o with subscriptionStatus := "paused" }
    let o2 := o1.addStatusToHistory "Cancelled"
      ("Subscription paused: " ++ jsOrStr reason "User request") (some reqUserId) now
    (o2, { statusCode := 200, success := true,
           message := "Subscription paused successfully" })

/-- resumeSubscription (part_003 lines 2066-2142), acting on a found order. -/
def resumeSubscription (o : Order) (reqUserId : String) (stripeOk : Bool)
    (now : Nat) : Order × HttpResp :=
  if o.user ≠ reqUserId then
    (o, { statusCode := 403, success := false,
          message := "Not authorized to resume this subscription" })
  else if !o.isSubscription then
    (o, { statusCode := 400, success := false, message := "This is not a subscription order" })
  else if o.subscriptionStatus ≠ "paused" then
    (o, { statusCode := 400, success := false,
          message := "Only paused subscriptions can be resumed" })
  else if o.stripeSubscriptionId.isSome && !stripeOk then
    (o, { statusCode := 400, success := false,
          message := "Error resuming subscription with Stripe" })
  else
    let o1 := { o with subscriptionStatus := "active" }
    let o2 := o1.addStatusToHistory "Payment_Confirmed" "Subscription resumed"
      (some reqUserId) now
    (o2, { statusCode := 200, success := true,
           message := "Subscription resumed successfully" })

/-- cancelSubscription (part_003 lines 2145-2222), acting on a found order. -/
def cancelSubscription (o : Order) (reason : Option String) (reqUserId : String)
    (stripeOk : Bool) (now : Nat) : Order × HttpResp :=
  if o.user ≠ reqUserId then
    (o, { statusCode := 403, success := false,
          message := "Not authorized to cancel this subscription" })
  else if !o.isSubscription then
    (o, { statusCode := 400, success := false, message := "This is not a subscription order" })
  else if ["cancelled", "expired"].contains o.subscriptionStatus then
    (o, { statusCode := 400, success := false,
          message := "Subscription is already cancelled or expired" })
  else if o.stripeSubscriptionId.isSome && !stripeOk then
    (o, { statusCode := 400, success := false,
          message := "Error cancelling subscription with Stripe" })
  else
    let o1 := { o with subscriptionStatus := "cancelled" }
    let o2 := o1.addStatusToHistory "Cancelled"
      ("Subscription cancelled: " ++ jsOrStr reason "User request") (some reqUserId) now
    (o2, { statusCode := 200, success := true,
           message := "Subscription cancelled successfully" })

/-- confirmStripePayment (part_003 lines 1425-1493), acting on a found order;
`retrieved` is the payment intent returned by `stripe.paymentIntents.retrieve`. -/
def confirmStripePayment (o : Order) (piId : String)
    (retrieved : StripePaymentIntent) (reqUserId reqUserEmail : String)
    (now : Nat) : Order × HttpResp :=
  if o.paymentIntent.id ≠ some piId then
    (o, { statusCode := 400, success := false,
          message := "Payment Intent does not match this order" })
  else if retrieved.status = "succeeded" then
    let o1 := { o with isPaid := true, paidAt := some now }
    let o2 := o1.addStatusToHistory "Payment_Confirmed"
      "Stripe payment confirmed successfully" (some reqUserId) now
    let o3 := { o2 with
      paymentResult := some { id := retrieved.id, status := retrieved.status,
                              updateTime := toString now, emailAddress := reqUserEmail }
      paymentIntent := { o2.paymentIntent with status := some retrieved.status } }
    (o3, { statusCode := 200, success := true, message := "Payment confirmed successfully" })
  else
    (o, { statusCode := 400, success := false, message := "Payment not successful" })

/-! ## Webhook reconciliation engine (part_003 lines 1496-1692) -/

/-- The invoice object carried by `invoice.payment_succeeded` /
`invoice.payment_failed` events. -/
structure StripeInvoice where
  id : String
  subscription : Option String := none
  paymentIntentId : Option String := none
  amountPaid : Rat := 0
  currency : String := "usd"
  number : Option String := none
  billingReason : String := ""
  periodStart : Nat := 0
  periodEnd : Nat := 0
deriving Repr, DecidableEq

/-- The mutations applied to an unpaid order by the `payment_intent.succeeded`
handler (part_003 lines 1519-1527). -/
def piSucceededUpdate (o : Order) (pi : StripePaymentIntent) (now : Nat) : Order :=
  let o1 := { o with isPaid := true, paidAt := some now }
  let o2 := o1.addStatusToHistory "Payment_Confirmed"
    "Payment confirmed via Stripe webhook" none now
  { o2 with
    paymentResult := some { id := pi.id, status := pi.status,
                            updateTime := toString now, emailAddress := "" }
    paymentIntent := { o2.paymentIntent with status := some pi.status } }

/-- Handler for `payment_intent.succeeded` (part_003 lines 1512-1534): guarded by
`!order.isPaid`, so a redelivery on an already-paid order is a no-op. -/
def handlePaymentIntentSucceeded (s : Store) (pi : StripePaymentIntent)
    (now : Nat) : Store :=
  match pi.metaOrderId.bind (findById s) with
  | none => s
  | some o =>
    if o.isPaid then s
    else saveOrder s (piSucceededUpdate o pi now)

/-- The `newOrderData` clone created for a renewal billing cycle (part_003
lines 1566-1600): the anchor's items/shipping/subscription fields with
`currentBillingCycle` incremented, `status = Payment_Confirmed`, paid, and a
fresh single-entry status history (no `paymentHistory` is copied). -/
def cycleOrderFrom (o : Order) (sid : String) (newId now : Nat) : Order :=
  { id := newId
    user := o.user
    orderItems := o.orderItems
    shippingAddress := o.shippingAddress
    paymentMethod := o.paymentMethod
    itemsPrice := o.itemsPrice
    taxPrice := o.taxPrice
    shippingPrice := o.shippingPrice
    totalPrice := o.subscriptionPrice
    isSubscription := true
    subscriptionType := o.subscriptionType
    subscriptionName := o.subscriptionName
    subscriptionPrice := o.subscriptionPrice
    maxProducts := o.maxProducts
    recurrence := o.recurrence
    recurrenceLabel := o.recurrenceLabel
    selectedProducts := o.selectedProducts
    billingCycle := o.billingCycle
    totalBillingCycles := o.totalBillingCycles
    currentBillingCycle := o.currentBillingCycle + 1
    subscriptionStatus := "active"
    stripeSubscriptionId := some sid
    stripeCustomerId := o.stripeCustomerId
    stripePriceId := o.stripePriceId
    status := "Payment_Confirmed"
    isPaid := true
    paidAt := some now
    paymentType := "online"
    statusHistory := [{ status := "Payment_Confirmed", timestamp := now,
                        note := "Recurring payment processed for billing cycle "
                                ++ toString (o.currentBillingCycle + 1),
                        updatedBy := some o.user }] }

/-- The payment entry the invoice-paid handler appends to the anchor
(part_003 lines 1548-1562). -/
def invoicePaidPaymentData (o : Order) (inv : StripeInvoice) : PaymentData :=
  { paymentId := some (jsOrStr inv.paymentIntentId inv.id)
    amount := inv.amountPaid / 100
    currency := some inv.currency
    status := "succeeded"
    billingCycle := some (o.currentBillingCycle + 1)
    stripeInvoiceId := some inv.id
    stripePaymentIntentId := inv.paymentIntentId
    metadata := [("invoiceNumber", inv.number.getD ""),
                 ("billingReason", inv.billingReason),
                 ("periodStart", toString inv.periodStart),
                 ("periodEnd", toString inv.periodEnd)] }

/-- Handler for `invoice.payment_succeeded` (part_003 lines 1536-1618):
append a payment entry for `currentBillingCycle + 1` on the anchor; when
`billing_reason = subscription_cycle` additionally create a new cycle order
and increment the anchor's `currentBillingCycle`. No idempotency guard. -/
def handleInvoicePaymentSucceeded (s : Store) (inv : StripeInvoice)
    (now : Nat) : Store :=
  match inv.subscription.bind (findBySubId s) with
  | none => s
  | some o =>
    if o.isSubscription then
      let o1 := o.addPaymentToHistory (invoicePaidPaymentData o inv) now
      if inv.billingReason = "subscription_cycle" then
        let newOrder := cycleOrderFrom o1 (inv.subscription.getD "") (freshId s) now
        let s1 := s ++ [newOrder]
        let o2 := { o1 with currentBillingCycle := o1.currentBillingCycle + 1 }
        saveOrder s1 o2
      else
        saveOrder s o1
    else s

/-- Handler for `invoice.payment_failed` (part_003 lines 1620-1635). -/
def handleInvoicePaymentFailed (s : Store) (subId : Option String)
    (now : Nat) : Store :=
  match subId.bind (findBySubId s) with
  | none => s
  | some o =>
    if o.isSubscription then
      let o1 := o.addStatusToHistory "Payment_Failed"
        "Subscription payment failed via Stripe webhook" none now
      saveOrder s { o1 with subscriptionStatus := "payment_failed" }
    else s

/-- Handler for `customer.subscription.deleted` (part_003 lines 1637-1651). -/
def handleSubscriptionDeleted (s : Store) (subId : String) (now : Nat) : Store :=
  match findBySubId s subId with
  | none => s
  | some o =>
    if o.isSubscription then
      let o1 := o.addStatusToHistory "Cancelled"
        "Subscription cancelled via Stripe webhook" none now
      saveOrder s { o1 with subscriptionStatus := "cancelled" }
    else s

/-- Handler for `payment_intent.payment_failed` (part_003 lines 1653-1668). -/
def handlePaymentIntentFailed (s : Store) (pi : StripePaymentIntent)
    (now : Nat) : Store :=
  match pi.metaOrderId.bind (findById s) with
  | none => s
  | some o =>
    let o1 := o.addStatusToHistory "Payment_Failed"
      "Payment failed via Stripe webhook" none now
    saveOrder s { o1 with
      paymentIntent := { o1.paymentIntent with status := some pi.status } }

/-- Handler for `payment_intent.canceled` (part_003 lines 1670-1685). -/
def handlePaymentIntentCanceled (s : Store) (pi : StripePaymentIntent)
    (now : Nat) : Store :=
  match pi.metaOrderId.bind (findById s) with
  | none => s
  | some o =>
    let o1 := o.addStatusToHistory "Cancelled"
      "Payment cancelled via Stripe webhook" none now
    saveOrder s { o1 with
      paymentIntent := { o1.paymentIntent with status := some pi.status } }

/-- A signature-verified webhook event, by kind. -/
inductive WebhookEvent where
  | piSucceeded (pi : StripePaymentIntent)
  | piFailed (pi : StripePaymentIntent)
  | piCanceled (pi : StripePaymentIntent)
  | invoicePaid (inv : StripeInvoice)
  | invoiceFailed (subId : Option String)
  | subDeleted (subId : String)
  | other (eventType : String)
deriving Repr, DecidableEq

/-- The dispatch switch of handleStripeWebhook (part_003 lines 1511-1689);
unknown kinds are acknowledged without effect. -/
def handleStripeWebhook (s : Store) (e : WebhookEvent) (now : Nat) : Store :=
  match e with
  | .piSucceeded pi => handlePaymentIntentSucceeded s pi now
  | .piFailed pi => handlePaymentIntentFailed s pi now
  | .piCanceled pi => handlePaymentIntentCanceled s pi now
  | .invoicePaid inv => handleInvoicePaymentSucceeded s inv now
  | .invoiceFailed subId => handleInvoicePaymentFailed s subId now
  | .subDeleted subId => handleSubscriptionDeleted s subId now
  | .other _ => s

/-- A creation or reconciliation event applied to the store (for statements
about arbitrary event sequences). -/
inductive CoreEvent where
  | webhook (e : WebhookEvent)
  | create (req : CreateOrderRequest) (userId userEmail : String)
      (oneTimeGw : OneTimeGateway) (subGw : SubGateway)

/-- Apply one creation or reconciliation event to the store. -/
def coreStep (s : Store) (ev : CoreEvent) (now : Nat) : Store :=
  match ev with
  | .webhook e => handleStripeWebhook s e now
  | .create req userId userEmail g1 g2 =>
    (createOrder s req userId userEmail g1 g2 now).store

/-! ## Cron-based recurring billing (part_001 lines 6-100) -/

/-- The instance methods defined on orderSchema in the Order model (part_009
lines 303-406): these are the only method names a mongoose order document
carries. -/
def orderSchemaMethods : List String :=
  ["addStatusToHistory", "addPaymentToHistory", "getTrackingStage",
   "shouldProcessBilling", "updateNextBillingDate"]

/-- The call `subscription.processNextBillingCycle()` made by the cron job
(part_001 line 28). The Order model defines no method of that name, so in
JavaScript the call throws `TypeError: subscription.processNextBillingCycle
is not a function`; the embedding tests membership in `orderSchemaMethods`
and errs when (as here) the name is absent. The `.ok` branch is unreachable
and returns the document unmodified with `false`. -/
def callProcessNextBillingCycle (o : Order) : Except String (Order × Bool) :=
  if "processNextBillingCycle" ∈ orderSchemaMethods then .ok (o, false)
  else .error "TypeError: subscription.processNextBillingCycle is not a function"

/-- Query `Order.getActiveSubscriptions` (part_009 lines 414-424): active
subscription orders sorted by `nextBillingDate` ascending. -/
def getActiveSubscriptions (s : Store) : List Order :=
  (s.filter (fun o => o.isSubscription && o.subscriptionStatus == "active")).mergeSort
    (fun a b => a.nextBillingDate.getD 0 ≤ b.nextBillingDate.getD 0)

/-- The summary assembled by the cron job: `(subscription id, new order id)`
pairs for processed subscriptions and `(subscription id, error message)`
pairs for failed ones. -/
structure CronOutcome where
  processed : List (Nat × Nat)
  failed : List (Nat × String)
deriving Repr, DecidableEq

/-- The `newOrderData` the cron path would create for a billing cycle
(part_001 lines 32-61); only reachable if `processNextBillingCycle` existed. -/
def cronCycleOrder (sub : Order) (newId now : Nat) : Order :=
  { id := newId
    user := sub.user
    orderItems := sub.orderItems
    shippingAddress := sub.shippingAddress
    paymentMethod := sub.paymentMethod
    itemsPrice := sub.itemsPrice
    taxPrice := sub.taxPrice
    shippingPrice := sub.shippingPrice
    totalPrice := sub.subscriptionPrice
    isSubscription := true
    subscriptionType := sub.subscriptionType
    subscriptionName := sub.subscriptionName
    subscriptionPrice := sub.subscriptionPrice
    maxProducts := sub.maxProducts
    recurrence := sub.recurrence
    recurrenceLabel := sub.recurrenceLabel
    selectedProducts := sub.selectedProducts
    billingCycle := sub.billingCycle
    totalBillingCycles := sub.totalBillingCycles
    currentBillingCycle := sub.currentBillingCycle
    status := "Payment_Confirmed"
    isPaid := true
    paidAt := some now
    statusHistory := [{ status := "Payment_Confirmed", timestamp := now,
                        note := "Recurring billing for subscription cycle "
                                ++ toString sub.currentBillingCycle,
                        updatedBy := some sub.user }] }

/-- One iteration of the cron loop (part_001 lines 26-82): invoke the missing
method; on the (always-taken) error path record the failure and leave the
store alone. -/
def cronStep (acc : Store × CronOutcome) (sub : Order) : Store × CronOutcome :=
  match callProcessNextBillingCycle sub with
  | .ok (sub2, shouldProcess) =>
    if shouldProcess then
      let newOrder := cronCycleOrder sub2 (freshId acc.1) 0
      let s1 := saveOrder (acc.1 ++ [newOrder]) sub2
      (s1, { acc.2 with processed := acc.2.processed ++ [(sub.id, newOrder.id)] })
    else acc
  | .error msg =>
    (acc.1, { acc.2 with failed := acc.2.failed ++ [(sub.id, msg)] })

/-- processRecurringBilling (part_001 lines 6-100): iterate over the active
subscriptions, catching each per-subscription error. -/
def processRecurringBilling (s : Store) : Store × CronOutcome :=
  (getActiveSubscriptions s).foldl cronStep (s, { processed := [], failed := [] })

/-! ## The status-history invariant and store lemmas -/

/-- The spec's order invariant: `statusHistory` is non-empty and the order's
current `status` equals the `status` of its most recent entry. -/
def statusInv (o : Order) : Bool :=
  match o.statusHistory.getLast? with
  | some e => e.status == o.status
  | none => false

/-- Uniqueness of Mongo ids in the store (holds of a real database). -/
def idsNodup (s : Store) : Prop := (s.map Order.id).Nodup

/-- Apply a sequence of timestamped creation/reconciliation events. -/
def runEvents (s : Store) (evs : List (CoreEvent × Nat)) : Store :=
  evs.foldl (fun st en => coreStep st en.1 en.2) s

/-! ## Concrete fixtures used by witnesses and counterexamples -/

/-- A concrete shipping address. -/
def exShipping : ShippingAddress :=
  { address := "1 Main St", city := "Springfield", postalCode := "11111", country := "US" }

/-- A concrete already-paid one-time order with id 1. -/
def exPaidOrder : Order :=
  { id := 1
    user := "u1"
    shippingAddress := exShipping
    status := "Payment_Confirmed"
    isPaid := true
    paidAt := some 2
    paymentIntent := { id := some "pi_1", status := some "succeeded" }
    statusHistory := [{ status := "Pending", timestamp := 0, note := "", updatedBy := none },
                      { status := "Payment_Confirmed", timestamp := 2, note := "", updatedBy := none }] }

/-- A concrete subscription anchor order with id 1, as persisted by
subscription creation: one succeeded payment entry for billing cycle 1. -/
def exAnchor : Order :=
  { id := 1
    user := "u1"
    shippingAddress := exShipping
    isSubscription := true
    subscriptionType := some "basic"
    subscriptionName := some "Basic"
    subscriptionPrice := 50
    recurrence := some "monthly"
    totalPrice := 50
    stripeSubscriptionId := some "sub_1"
    stripeCustomerId := some "cus_1"
    stripePriceId := some "price_1"
    currentBillingCycle := 1
    subscriptionStatus := "active"
    status := "Payment_Confirmed"
    isPaid := true
    paidAt := some 0
    statusHistory := [{ status := "Payment_Confirmed", timestamp := 0,
                        note := "Subscription order created and first payment processed",
                        updatedBy := some "u1" }]
    paymentHistory := [{ paymentId := some "pi_0", amount := 50, currency := "usd",
                         status := "succeeded", billingCycle := 1, paidAt := 0,
                         stripeInvoiceId := some "in_0", stripePaymentIntentId := some "pi_0",
                         failureReason := none, metadata := [] }] }

/-- A renewal invoice (`billing_reason = subscription_cycle`) for `exAnchor`. -/
def exCycleInvoice : StripeInvoice :=
  { id := "in_1", subscription := some "sub_1", paymentIntentId := some "pi_2",
    amountPaid := 5000, currency := "usd", number := some "0002",
    billingReason := "subscription_cycle", periodStart := 10, periodEnd := 20 }

/-- An initial invoice (`billing_reason = subscription_create`) redelivered
for `exAnchor`. -/
def exInitialInvoice : StripeInvoice :=
  { id := "in_0", subscription := some "sub_1", paymentIntentId := some "pi_0",
    amountPaid := 5000, currency := "usd", number := some "0001",
    billingReason := "subscription_create", periodStart := 0, periodEnd := 10 }

/-- A `payment_intent.succeeded` event referencing order 1. -/
def exPiSucceeded : StripePaymentIntent :=
  { id := "pi_1", status := "succeeded", clientSecret := "cs_1", metaOrderId := some 1 }

/-- A `payment_intent.payment_failed` event referencing order 1. -/
def exPiFailed : StripePaymentIntent :=
  { id := "pi_1", status := "requires_payment_method", clientSecret := "cs_1",
    metaOrderId := some 1 }

/-- A valid one-time createOrder request. -/
def exOneTimeReq : CreateOrderRequest :=
  { orderItems := some [{ name := some "Widget", price := some 10, quantity := some 2,
                          image := some "img", product := some "p1" }]
    shippingAddress := some { address := some "1 Main St", city := some "Springfield",
                              postalCode := some "11111", country := some "US" }
    paymentMethod := some "stripe"
    itemsPrice := some 20
    totalPrice := some 20
    paymentDetails := some { paymentMethodId := some "pm_card_visa"
                             cardNumber := some "4242 4242 4242 4242"
                             expiryMonth := some "12"
                             expiryYear := some "2030"
                             cvc := some "123"
                             cardHolderName := some "A Buyer" } }

/-- A valid subscription createOrder request (monthly, billingCycle 1). -/
def exSubReq : CreateOrderRequest :=
  { exOneTimeReq with
    isSubscription := true
    subscriptionType := some "basic"
    subscriptionName := some "Basic"
    subscriptionPrice := some 50
    recurrence := some "monthly"
    billingCycle := some 1
    totalBillingCycles := some 3 }

/-- A gateway whose payment intent comes back `succeeded`. -/
def exGwSucceeded : OneTimeGateway :=
  fun p => .ok { id := "pi_9", status := "succeeded", clientSecret := "cs_9",
                 metaOrderId := some p.metaOrderId }

/-- A gateway whose payment intent comes back `canceled` (neither `succeeded`
nor `requires_action`). -/
def exGwDeclined : OneTimeGateway :=
  fun p => .ok { id := "pi_9", status := "canceled", clientSecret := "cs_9",
                 metaOrderId := some p.metaOrderId }

/-- A one-time gateway that throws a card error. -/
def exGwThrows : OneTimeGateway :=
  fun _ => .error { kind := .cardError, message := "Your card was declined",
                    code := some "card_declined", declineCode := some "generic_decline" }

/-- A subscription gateway where every Stripe call succeeds. -/
def exSubGwOk : SubGateway :=
  fun _ => .ok { customerId := "cus_9", priceId := "price_9", subscriptionId := "sub_9",
                 latestInvoiceId := some "in_9", latestInvoicePaymentIntentId := some "pi_9" }

/-- A subscription gateway that throws. -/
def exSubGwThrows : SubGateway :=
  fun _ => .error { kind := .invalidRequest, message := "No such price" }

/-- A concrete order currently in `Shipped` status. -/
def exShippedOrder : Order :=
  { id := 3
    user := "u1"
    shippingAddress := exShipping
    status := "Shipped"
    isPaid := true
    statusHistory := [{ status := "Pending", timestamp := 0, note := "", updatedBy := none },
                      { status := "Shipped", timestamp := 4, note := "", updatedBy := none }] }

/-- A concrete order currently in `Processing` status. -/
def exProcessingOrder : Order :=
  { id := 4
    user := "u2"
    shippingAddress := exShipping
    status := "Processing"
    isPaid := true
    statusHistory := [{ status := "Pending", timestamp := 0, note := "", updatedBy := none },
                      { status := "Processing", timestamp := 3, note := "", updatedBy := none }] }

/-! ## Lemmas -/

theorem statusInv_addStatusToHistory (o : Order) (st note : String)
    (ub : Option String) (now : Nat) :
    statusInv (o.addStatusToHistory st note ub now) = true := by
  simp [statusInv, Order.addStatusToHistory, List.getLast?_concat]

theorem mem_saveOrder {x : Order} {s : Store} {o : Order}
    (h : x ∈ saveOrder s o) : x = o ∨ x ∈ s := by
  simp only [saveOrder, List.mem_map] at h
  obtain ⟨a, ha, hx⟩ := h
  by_cases hid : a.id = o.id
  · left; rw [if_pos hid] at hx; exact hx.symm
  · right; rw [if_neg hid] at hx; exact hx ▸ ha

theorem findById_id {s : Store} {oid : Nat} {o : Order}
    (h : findById s oid = some o) : o.id = oid := by
  have := List.find?_some h
  simpa using this

theorem mem_of_findById {s : Store} {oid : Nat} {o : Order}
    (h : findById s oid = some o) : o ∈ s :=
  List.mem_of_find?_eq_some h

theorem findBySubId_props {s : Store} {sid : String} {o : Order}
    (h : findBySubId s sid = some o) :
    o.stripeSubscriptionId = some sid ∧ o ∈ s := by
  refine ⟨?_, List.mem_of_find?_eq_some h⟩
  have := List.find?_some h
  simpa using this

theorem findById_saveOrder {s : Store} {o : Order} (o2 : Order) {oid : Nat}
    (hfind : findById s oid = some o) (hid : o2.id = o.id) :
    findById (saveOrder s o2) oid = some o2 := by
  have hoid : o.id = oid := findById_id hfind
  induction s with
  | nil => simp [findById] at hfind
  | cons a t ih =>
    by_cases h : a.id = oid
    · have ha : a = o := by
        have : findById (a :: t) oid = some a :=
          List.find?_cons_of_pos _ (by simpa using h)
        rw [this] at hfind; exact Option.some.inj hfind
      have h2 : a.id = o2.id := by rw [hid, ← ha]
      simp only [saveOrder, List.map_cons, if_pos h2, findById]
      exact List.find?_cons_of_pos _ (by simp [hid, hoid])
    · have hfind2 : findById t oid = some o := by
        have := List.find?_cons_of_neg (l := t) (a := a)
          (p := fun x => x.id == oid) (by simpa using h)
        simpa [findById, this] using hfind
      have h2 : ¬ a.id = o2.id := by rw [hid, hoid]; exact h
      simp only [saveOrder, List.map_cons, if_neg h2, findById]
      rw [List.find?_cons_of_neg _ (by simpa using h)]
      exact ih hfind2

theorem le_foldr_max {x : Nat} {l : List Nat} (h : x ∈ l) :
    x ≤ l.foldr max 0 := by
  induction l with
  | nil => cases h
  | cons a t ih =>
    rcases List.mem_cons.mp h with rfl | ht
    · exact le_max_left _ _
    · exact le_trans (ih ht) (le_max_right _ _)

theorem id_lt_freshId {o : Order} {s : Store} (h : o ∈ s) :
    o.id < freshId s := by
  have : o.id ∈ s.map Order.id := List.mem_map_of_mem _ h
  have := le_foldr_max this
  simp only [freshId]
  omega

theorem saveOrder_append (s : Store) (x y : Order) (h : x.id = y.id) :
    saveOrder (s ++ [x]) y = saveOrder s y ++ [y] := by
  simp [saveOrder, List.map_append, h]

theorem piSucceededUpdate_id (o : Order) (pi : StripePaymentIntent) (n : Nat) :
    (piSucceededUpdate o pi n).id = o.id := rfl

theorem piSucceededUpdate_isPaid (o : Order) (pi : StripePaymentIntent) (n : Nat) :
    (piSucceededUpdate o pi n).isPaid = true := rfl

/-- Applying the `payment_intent.succeeded` handler twice in sequence equals
applying it once: the second delivery finds the order already paid. -/
theorem handlePaymentIntentSucceeded_pair (s : Store) (pi : StripePaymentIntent)
    (n nn : Nat) :
    handlePaymentIntentSucceeded (handlePaymentIntentSucceeded s pi n) pi nn =
      handlePaymentIntentSucceeded s pi n := by
  cases hm : pi.metaOrderId with
  | none => simp [handlePaymentIntentSucceeded, hm]
  | some oid =>
    cases hf : findById s oid with
    | none => simp [handlePaymentIntentSucceeded, hm, hf]
    | some o =>
      by_cases hp : o.isPaid
      · simp [handlePaymentIntentSucceeded, hm, hf, hp]
      · have h1 : handlePaymentIntentSucceeded s pi n =
            saveOrder s (piSucceededUpdate o pi n) := by
          simp [handlePaymentIntentSucceeded, hm, hf, hp]
        rw [h1]
        have hf2 : findById (saveOrder s (piSucceededUpdate o pi n)) oid =
            some (piSucceededUpdate o pi n) :=
          findById_saveOrder _ hf (piSucceededUpdate_id o pi n)
        simp [handlePaymentIntentSucceeded, hm, hf2, piSucceededUpdate_isPaid]

/-! ## Claim C3 -/

/-- C3: delivering `payment_intent.succeeded` for an order whose `isPaid` is
already true leaves the store (hence the order: its history, `isPaid`,
`paidAt`, `paymentResult`) completely unchanged, and — for every store —
delivering the same success event twice in sequence produces exactly the
state of delivering it once, so `isPaid` can go false→true at most once
through this handler. -/
theorem c3_paid_webhook_noop_idempotent (s : Store) (pi : StripePaymentIntent)
    (o : Order) (n : Nat)
    (hfind : pi.metaOrderId.bind (findById s) = some o)
    (hpaid : o.isPaid = true) :
    handlePaymentIntentSucceeded s pi n = s ∧
    ∀ (s2 : Store) (m mm : Nat),
      handlePaymentIntentSucceeded (handlePaymentIntentSucceeded s2 pi m) pi mm =
        handlePaymentIntentSucceeded s2 pi m := by
  constructor
  · simp [handlePaymentIntentSucceeded, hfind, hpaid]
  · intro s2 m mm
    exact handlePaymentIntentSucceeded_pair s2 pi m mm

/-- Witness for C3 at a concrete already-paid order. -/
theorem c3_witness :
    handlePaymentIntentSucceeded [exPaidOrder] exPiSucceeded 5 = [exPaidOrder] :=
  (c3_paid_webhook_noop_idempotent [exPaidOrder] exPiSucceeded exPaidOrder 5
    rfl rfl).1

/-! ## Claim C8 -/

/-- C8: cancelOrder rejects with HTTP 400 and leaves the order untouched when
the status is `Shipped`, `Out_for_Delivery` or `Delivered` (for any
authorized caller); deleteOrder rejects with HTTP 400 and leaves the store
untouched when the status is not `Cancelled`/`Payment_Failed`/`Refunded`. -/
theorem c8_cancel_delete_guards (o : Order) (s : Store) (oid : Nat)
    (reason : Option String) (uid : String) (admin subOk : Bool) (now : Nat)
    (o2 : Order)
    (hstat : (["Shipped", "Out_for_Delivery", "Delivered"].contains o.status) = true)
    (hauth : o.user = uid ∨ admin = true)
    (hfind : findById s oid = some o2)
    (hstat2 : (["Cancelled", "Payment_Failed", "Refunded"].contains o2.status) = false) :
    cancelOrder o reason uid admin subOk now =
      (o, { statusCode := 400, success := false,
            message := "Cannot cancel shipped, out for delivery, or delivered orders" }) ∧
    deleteOrder s oid =
      (s, { statusCode := 400, success := false,
            message := "Only cancelled, failed, or refunded orders can be deleted" }) := by
  have hs : o.status = "Shipped" ∨ o.status = "Out_for_Delivery" ∨
      o.status = "Delivered" := by simpa using hstat
  constructor
  · rcases hauth with h | h <;> rcases hs with h1 | h1 | h1 <;>
      simp [cancelOrder, h, h1]
  · have h2 : ¬o2.status = "Cancelled" ∧ ¬o2.status = "Payment_Failed" ∧
        ¬o2.status = "Refunded" := by simpa using hstat2
    simp [deleteOrder, hfind, h2.1, h2.2.1, h2.2.2]

/-- Witness for C8: cancelling a `Shipped` order and deleting a `Processing`
order are both rejected with no state change. -/
theorem c8_witness :
    cancelOrder exShippedOrder none "u1" false true 9 =
      (exShippedOrder,
       { statusCode := 400, success := false,
         message := "Cannot cancel shipped, out for delivery, or delivered orders" }) ∧
    deleteOrder [exProcessingOrder] 4 =
      ([exProcessingOrder],
       { statusCode := 400, success := false,
         message := "Only cancelled, failed, or refunded orders can be deleted" }) :=
  c8_cancel_delete_guards exShippedOrder [exProcessingOrder] 4 none "u1" false true 9
    exProcessingOrder rfl (Or.inl rfl) rfl rfl

/-! ## Claim C9 -/

theorem findItemError_none {items : List OrderItemReq}
    (h : findItemError items = none) :
    ∀ i ∈ items, (truthyStr i.name && truthyNum i.price && truthyNum i.quantity
        && truthyStr i.product) = true ∧ ¬ i.quantity.getD 0 ≤ 0 := by
  induction items with
  | nil => intro i hi; cases hi
  | cons a t ih =>
    intro i hi
    rw [findItemError] at h
    split at h
    · exact absurd h (by simp)
    · split at h
      · exact absurd h (by simp)
      · rcases List.mem_cons.mp hi with rfl | ht
        · refine ⟨?_, by assumption⟩
          rename_i hg _
          simpa using hg
        · exact ih h i ht

/-- When every validation check of createOrder passes, the request satisfies
all the properties the checks test. -/
theorem validateCreateOrder_none {req : CreateOrderRequest}
    (h : validateCreateOrder req = none) :
    ∃ items, req.orderItems = some items ∧ items.length ≠ 0 ∧
    (∃ addr, req.shippingAddress = some addr ∧
      (truthyStr addr.address && truthyStr addr.city && truthyStr addr.postalCode) = true) ∧
    truthyStr req.paymentMethod = true ∧
    (["stripe", "card"].contains (jsToLower (req.paymentMethod.getD ""))) = true ∧
    truthyNum req.totalPrice = true ∧ ¬ req.totalPrice.getD 0 ≤ 0 ∧
    findItemError items = none := by
  cases hoi : req.orderItems with
  | none => simp [validateCreateOrder, hoi] at h
  | some items =>
    cases hsa : req.shippingAddress with
    | none =>
      simp only [validateCreateOrder, hoi, hsa] at h
      split at h <;> simp at h
    | some addr =>
      refine ⟨items, rfl, ?_⟩
      simp only [validateCreateOrder, hoi, hsa] at h
      split at h
      · exact absurd h (by simp)
      · split at h
        · exact absurd h (by simp)
        · split at h
          · exact absurd h (by simp)
          · split at h
            · exact absurd h (by simp)
            · rename_i hlen hguard hpm htp
              cases hfe : findItemError items with
              | some m => rw [hfe] at h; exact absurd h (by simp)
              | none =>
                simp only [Bool.not_eq_true', Bool.or_eq_true, not_or,
                  Bool.not_eq_false, decide_eq_true_eq, not_le] at hpm htp
                refine ⟨by simpa using hlen, ⟨addr, rfl, by simpa using hguard⟩,
                  hpm.1, hpm.2, htp.1, ?_, rfl⟩
                exact not_le_of_lt htp.2

/-- C9: every createOrder request exhibiting one of the listed validation
failures — no or empty items, incomplete shipping address, unsupported
payment method, missing or non-positive total price, an item missing
name/price/quantity/product, or an item with non-positive quantity — is
answered with a 400 client error while the store is unchanged and the
payment gateway is never invoked. -/
theorem c9_validation_rejects_before_side_effects (s : Store)
    (req : CreateOrderRequest) (uid mail : String)
    (g1 : OneTimeGateway) (g2 : SubGateway) (now : Nat)
    (hbad :
      req.orderItems = none ∨ req.orderItems = some [] ∨
      req.shippingAddress = none ∨
      (∃ addr, req.shippingAddress = some addr ∧
        (addr.address = none ∨ addr.address = some "" ∨ addr.city = none ∨
         addr.city = some "" ∨ addr.postalCode = none ∨ addr.postalCode = some "")) ∨
      req.paymentMethod = none ∨
      (∃ pm, req.paymentMethod = some pm ∧ ¬ jsToLower pm ∈ ["stripe", "card"]) ∨
      req.totalPrice = none ∨ (∃ q, req.totalPrice = some q ∧ q ≤ 0) ∨
      (∃ items i, req.orderItems = some items ∧ i ∈ items ∧
        (i.name = none ∨ i.price = none ∨ i.quantity = none ∨ i.product = none)) ∨
      (∃ items i q, req.orderItems = some items ∧ i ∈ items ∧ i.quantity = some q ∧ q ≤ 0)) :
    (createOrder s req uid mail g1 g2 now).store = s ∧
    (createOrder s req uid mail g1 g2 now).gatewayCalled = false ∧
    (createOrder s req uid mail g1 g2 now).resp.statusCode = 400 ∧
    (createOrder s req uid mail g1 g2 now).resp.success = false := by
  have hv : validateCreateOrder req ≠ none := by
    intro hnone
    obtain ⟨items, hitems, hlen, ⟨addr, haddr, hga⟩, hpm1, hpm2, htp1, htp2, hfe⟩ :=
      validateCreateOrder_none hnone
    have hitem := findItemError_none hfe
    have hga3 : (truthyStr addr.address = true ∧ truthyStr addr.city = true) ∧
        truthyStr addr.postalCode = true := by simpa using hga
    rcases hbad with h | h | h | h | h | h | h | h | h | h
    · rw [h] at hitems; cases hitems
    · rw [h] at hitems
      have : items = [] := (Option.some.inj hitems).symm
      simp [this] at hlen
    · rw [h] at haddr; cases haddr
    · obtain ⟨a2, ha2, hbadf⟩ := h
      rw [ha2] at haddr
      have he : a2 = addr := Option.some.inj haddr
      subst he
      rcases hbadf with hf | hf | hf | hf | hf | hf <;>
        simp [hf, truthyStr] at hga3
    · rw [h] at hpm1; simp [truthyStr] at hpm1
    · obtain ⟨pm, hpm, hnotin⟩ := h
      rw [hpm] at hpm2
      simp only [Option.getD_some] at hpm2
      exact hnotin (by simpa using hpm2)
    · rw [h] at htp1; simp [truthyNum] at htp1
    · obtain ⟨q, hq, hqle⟩ := h
      rw [hq] at htp1 htp2
      rcases eq_or_lt_of_le hqle with heq | hlt
      · simp [truthyNum, heq] at htp1
      · simp only [Option.getD_some] at htp2
        exact htp2 hqle
    · obtain ⟨items2, i, hsome, hmem, hbadf⟩ := h
      rw [hsome] at hitems
      have he : items2 = items := Option.some.inj hitems
      subst he
      have := (hitem i hmem).1
      rcases hbadf with hf | hf | hf | hf <;>
        simp [hf, truthyStr, truthyNum] at this
    · obtain ⟨items2, i, q, hsome, hmem, hq, hqle⟩ := h
      rw [hsome] at hitems
      have he : items2 = items := Option.some.inj hitems
      subst he
      obtain ⟨hg, hnle⟩ := hitem i hmem
      rcases eq_or_lt_of_le hqle with heq | hlt
      · have : truthyNum i.quantity = false := by simp [truthyNum, hq, heq]
        simp [this] at hg
      · exact hnle (by simp [hq]; exact hqle)
  cases hvv : validateCreateOrder req with
  | none => exact absurd hvv hv
  | some m => simp [createOrder, hvv]

/-- Witness for C9: a request with an empty item list is rejected with 400,
no persistence and no gateway call. -/
theorem c9_witness :
    (createOrder [] { exOneTimeReq with orderItems := some [] } "u1" "m"
      exGwSucceeded exSubGwOk 7).store = [] ∧
    (createOrder [] { exOneTimeReq with orderItems := some [] } "u1" "m"
      exGwSucceeded exSubGwOk 7).gatewayCalled = false ∧
    (createOrder [] { exOneTimeReq with orderItems := some [] } "u1" "m"
      exGwSucceeded exSubGwOk 7).resp.statusCode = 400 ∧
    (createOrder [] { exOneTimeReq with orderItems := some [] } "u1" "m"
      exGwSucceeded exSubGwOk 7).resp.success = false :=
  c9_validation_rejects_before_side_effects [] _ "u1" "m" exGwSucceeded exSubGwOk 7
    (Or.inr (Or.inl rfl))

/-! ## Claim C10 -/

theorem callProcessNextBillingCycle_error (o : Order) :
    callProcessNextBillingCycle o =
      .error "TypeError: subscription.processNextBillingCycle is not a function" := by
  simp [callProcessNextBillingCycle, orderSchemaMethods]

theorem cron_foldl_inert (subs : List Order) (s : Store) (acc : CronOutcome) :
    subs.foldl cronStep (s, acc) =
      (s, { processed := acc.processed
            failed := acc.failed ++ subs.map (fun o =>
              (o.id, "TypeError: subscription.processNextBillingCycle is not a function")) }) := by
  induction subs generalizing acc with
  | nil => simp
  | cons a t ih =>
    simp only [List.foldl_cons, List.map_cons]
    rw [show cronStep (s, acc) a =
      (s, { acc with failed := acc.failed ++
        [(a.id, "TypeError: subscription.processNextBillingCycle is not a function")] })
      from by simp [cronStep, callProcessNextBillingCycle_error]]
    rw [ih]
    simp

/-- C10: the cron path's per-subscription step calls
`processNextBillingCycle`, a method the Order model never defines, so the
step always throws; the error is caught and every active subscription is
recorded as failed, the cron never creates a cycle order, never saves the
subscription, and the store (hence every `nextBillingDate`) is untouched. -/
theorem c10_cron_billing_always_fails (s : Store) :
    (∀ o : Order, callProcessNextBillingCycle o =
      .error "TypeError: subscription.processNextBillingCycle is not a function") ∧
    (processRecurringBilling s).1 = s ∧
    (processRecurringBilling s).2.processed = [] ∧
    (processRecurringBilling s).2.failed = (getActiveSubscriptions s).map (fun o =>
      (o.id, "TypeError: subscription.processNextBillingCycle is not a function")) := by
  refine ⟨callProcessNextBillingCycle_error, ?_, ?_, ?_⟩ <;>
    simp [processRecurringBilling, cron_foldl_inert]

/-! ## Claim C5 -/

theorem pendingOneTimeOrder_id (req : CreateOrderRequest) (uid : String)
    (nid now : Nat) : (pendingOneTimeOrder req uid nid now).id = nid := rfl

/-- C5 counterexample: a validated one-time order whose gateway authorization
returns the status `canceled` (neither `succeeded` nor `requires_action`)
ends with `order.status = "Pending"` — not `"Payment_Failed"` as claimed —
even though a `Payment_Failed` entry is appended to its history
(part_003 lines 687-695 push to `statusHistory` without setting `status`). -/
theorem c5_counterexample :
    ((createOrder [] exOneTimeReq "u1" "m" exGwDeclined exSubGwOk 7).store.map
        Order.status) = ["Pending"] ∧
    ((createOrder [] exOneTimeReq "u1" "m" exGwDeclined exSubGwOk 7).store.map
        (fun o => o.statusHistory.map StatusEntry.status)) =
      [["Pending", "Payment_Failed"]] ∧
    ((createOrder [] exOneTimeReq "u1" "m" exGwDeclined exSubGwOk 7).resp.statusCode) = 400 ∧
    ("Pending" : String) ≠ "Payment_Failed" := by
  refine ⟨?_, ?_, ?_, by decide⟩ <;> decide

/-- C5 (amended): mapping of the synchronous authorization result for a
validated one-time order: `succeeded` → status `Payment_Confirmed`,
`isPaid`/`paidAt` set, `paymentResult` recorded, 201; `requires_action` →
order stays `Pending` and the response carries the client secret, 201; any
other status → a `Payment_Failed` history entry is appended (as the last
entry) and a 400 client error is returned, but `order.status` remains
`Pending`. -/
theorem c5_amended_sync_payment_outcomes (s : Store) (req : CreateOrderRequest)
    (uid mail : String) (g1 : OneTimeGateway) (g2 : SubGateway) (now : Nat)
    (pi : StripePaymentIntent)
    (hval : validateCreateOrder req = none)
    (hsub : req.isSubscription = false)
    (hgw : g1 (oneTimePaymentIntentParams req (freshId s)) = .ok pi) :
    (pi.status = "succeeded" →
      ∃ o, (createOrder s req uid mail g1 g2 now).store.getLast? = some o ∧
        o.status = "Payment_Confirmed" ∧ o.isPaid = true ∧ o.paidAt = some now ∧
        o.paymentResult = some { id := pi.id, status := pi.status,
                                 updateTime := toString now, emailAddress := mail } ∧
        (createOrder s req uid mail g1 g2 now).resp.statusCode = 201) ∧
    (pi.status = "requires_action" →
      ∃ o, (createOrder s req uid mail g1 g2 now).store.getLast? = some o ∧
        o.status = "Pending" ∧
        (createOrder s req uid mail g1 g2 now).resp.statusCode = 201 ∧
        (createOrder s req uid mail g1 g2 now).resp.clientSecret = some pi.clientSecret) ∧
    (pi.status ≠ "succeeded" → pi.status ≠ "requires_action" →
      ∃ o, (createOrder s req uid mail g1 g2 now).store.getLast? = some o ∧
        o.status = "Pending" ∧
        (∃ e, o.statusHistory.getLast? = some e ∧ e.status = "Payment_Failed") ∧
        (createOrder s req uid mail g1 g2 now).resp.statusCode = 400) := by
  refine ⟨?_, ?_, ?_⟩
  · intro h
    simp only [createOrder, hval, hsub, createOneTimeOrder, pendingOneTimeOrder_id,
      hgw, Bool.false_eq_true, if_false]
    rw [if_pos h]
    simp only []
    rw [saveOrder_append, List.getLast?_concat]
    · refine ⟨_, rfl, ?_⟩
      simp [oneTimeSucceededUpdate, oneTimeIntentApplied, Order.addPaymentToHistory, h]
    · rfl
  · intro h
    have hne : pi.status ≠ "succeeded" := by rw [h]; decide
    simp only [createOrder, hval, hsub, createOneTimeOrder, pendingOneTimeOrder_id,
      hgw, Bool.false_eq_true, if_false]
    rw [if_neg hne, if_pos h]
    simp only []
    rw [saveOrder_append, List.getLast?_concat]
    · refine ⟨_, rfl, ?_⟩
      simp [oneTimeIntentApplied, pendingOneTimeOrder]
    · rfl
  · intro h1 h2
    simp only [createOrder, hval, hsub, createOneTimeOrder, pendingOneTimeOrder_id,
      hgw, Bool.false_eq_true, if_false]
    rw [if_neg h1, if_neg h2]
    simp only []
    rw [saveOrder_append, List.getLast?_concat]
    · exact ⟨_, rfl, rfl, ⟨_, List.getLast?_concat _, rfl⟩, trivial⟩
    · rfl

/-- Witness for C5: a concrete `succeeded` authorization yields a confirmed,
paid order and a 201 response. -/
theorem c5_witness :
    ((createOrder [] exOneTimeReq "u1" "m" exGwSucceeded exSubGwOk 7).store.getLast?).map
        Order.status = some "Payment_Confirmed" ∧
    ((createOrder [] exOneTimeReq "u1" "m" exGwSucceeded exSubGwOk 7).store.getLast?).map
        Order.isPaid = some true ∧
    (createOrder [] exOneTimeReq "u1" "m" exGwSucceeded exSubGwOk 7).resp.statusCode = 201 := by
  obtain ⟨o, h1, h2, h3, h4, h5, h6⟩ :=
    (c5_amended_sync_payment_outcomes [] exOneTimeReq "u1" "m" exGwSucceeded exSubGwOk 7
      { id := "pi_9", status := "succeeded", clientSecret := "cs_9", metaOrderId := some 1 }
      rfl rfl rfl).1 rfl
  refine ⟨?_, ?_, h6⟩
  · rw [h1, Option.map_some']
    exact congrArg some h2
  · rw [h1, Option.map_some']
    exact congrArg some h3

/-! ## Claim C6 -/

/-- C6 counterexample: for a subscription request with
`recurrence = "biweekly"` and `billingCycle = 1`, the recurring price object
sent to the gateway has `interval_count = 1`, not the claimed `2`:
`interval_count` is taken from `billingCycle || 1` (part_003 line 762), not
derived from the recurrence. -/
theorem c6_counterexample :
    (subscriptionPriceData { exSubReq with recurrence := some "biweekly" }).recurring =
      { interval := "week", intervalCount := 1 } ∧
    ({ interval := "week", intervalCount := 1 } : PriceRecurring) ≠
      { interval := "week", intervalCount := 2 } := by
  constructor
  · rfl
  · decide

/-- C6 (amended): the recurring price object's `interval` is derived from
`recurrence` as weekly→week, biweekly→week, monthly→month, quarterly→month
(default month), while `interval_count` always equals the request's
`billingCycle` field (defaulting to 1 when absent or 0), independent of the
recurrence — so biweekly yields count 2 only when `billingCycle = 2`. -/
theorem c6_amended_interval_mapping (req : CreateOrderRequest) :
    (subscriptionPriceData req).recurring =
      { interval := if req.recurrence = some "weekly" ∨ req.recurrence = some "biweekly"
                    then "week" else "month"
        intervalCount := jsOrNat req.billingCycle 1 } := by
  cases hr : req.recurrence with
  | none => simp [subscriptionPriceData, getStripeInterval, hr]
  | some r =>
    by_cases h1 : r = "weekly"
    · simp [subscriptionPriceData, getStripeInterval, hr, h1]
    · by_cases h2 : r = "biweekly"
      · simp [subscriptionPriceData, getStripeInterval, hr, h1, h2]
      · by_cases h3 : r = "monthly"
        · simp [subscriptionPriceData, getStripeInterval, hr, h1, h2, h3]
        · by_cases h4 : r = "quarterly"
          · simp [subscriptionPriceData, getStripeInterval, hr, h1, h2, h3, h4]
          · simp [subscriptionPriceData, getStripeInterval, hr, h1, h2, h3, h4]

/-! ## Claim C7 -/

theorem stripeErrorResponse_400 (e : StripeError) :
    (stripeErrorResponse e).statusCode = 400 ∧ (stripeErrorResponse e).success = false := by
  cases e with
  | mk k m c d => cases k <;> simp [stripeErrorResponse]

/-- C7 counterexample: a validated subscription creation on which the gateway
throws leaves NO order record at all (the store stays empty), because
part_003 persists the subscription order only after every Stripe call
succeeds — contradicting "a queryable order record still exists afterwards". -/
theorem c7_counterexample :
    (createOrder [] exSubReq "u1" "m" exGwSucceeded exSubGwThrows 7).store = [] ∧
    (createOrder [] exSubReq "u1" "m" exGwSucceeded exSubGwThrows 7).resp.statusCode = 400 :=
  ⟨rfl, rfl⟩

/-- C7 (amended): a gateway exception during creation never propagates — the
handler always returns a structured 400 client response — but the persisted
state depends on the path: one-time creation leaves exactly the pre-gateway
`Pending` order (with no gateway error recorded on it), while subscription
creation leaves no order record at all. -/
theorem c7_amended_gateway_error_handling (s : Store) (req : CreateOrderRequest)
    (uid mail : String) (g1 : OneTimeGateway) (g2 : SubGateway) (now : Nat)
    (err1 err2 : StripeError)
    (hval : validateCreateOrder req = none) :
    (req.isSubscription = false →
      g1 (oneTimePaymentIntentParams req (freshId s)) = .error err1 →
      (createOrder s req uid mail g1 g2 now).store =
        s ++ [pendingOneTimeOrder req uid (freshId s) now] ∧
      (pendingOneTimeOrder req uid (freshId s) now).status = "Pending" ∧
      (pendingOneTimeOrder req uid (freshId s) now).paymentIntent = {} ∧
      (createOrder s req uid mail g1 g2 now).resp.statusCode = 400 ∧
      (createOrder s req uid mail g1 g2 now).resp.success = false) ∧
    (req.isSubscription = true →
      g2 (subscriptionPriceData req) = .error err2 →
      (createOrder s req uid mail g1 g2 now).store = s ∧
      (createOrder s req uid mail g1 g2 now).resp.statusCode = 400 ∧
      (createOrder s req uid mail g1 g2 now).resp.success = false) := by
  constructor
  · intro hsub hgw
    simp only [createOrder, hval, hsub, createOneTimeOrder, pendingOneTimeOrder_id,
      hgw, Bool.false_eq_true, if_false]
    refine ⟨by trivial, by trivial, by trivial, ?_, ?_⟩
    · exact (stripeErrorResponse_400 err1).1
    · exact (stripeErrorResponse_400 err1).2
  · intro hsub hgw
    simp only [createOrder, hval, hsub, createSubscriptionOrder, hgw, if_true]
    refine ⟨by trivial, ?_, ?_⟩
    · exact (stripeErrorResponse_400 err2).1
    · exact (stripeErrorResponse_400 err2).2

/-- Witness for C7 on both creation paths with concrete throwing gateways. -/
theorem c7_witness :
    ((createOrder [] exOneTimeReq "u1" "m" exGwThrows exSubGwOk 7).store =
      [] ++ [pendingOneTimeOrder exOneTimeReq "u1" (freshId []) 7] ∧
     (pendingOneTimeOrder exOneTimeReq "u1" (freshId []) 7).status = "Pending" ∧
     (pendingOneTimeOrder exOneTimeReq "u1" (freshId []) 7).paymentIntent = {} ∧
     (createOrder [] exOneTimeReq "u1" "m" exGwThrows exSubGwOk 7).resp.statusCode = 400 ∧
     (createOrder [] exOneTimeReq "u1" "m" exGwThrows exSubGwOk 7).resp.success = false) ∧
    ((createOrder [] exSubReq "u1" "m" exGwSucceeded exSubGwThrows 7).store = [] ∧
     (createOrder [] exSubReq "u1" "m" exGwSucceeded exSubGwThrows 7).resp.statusCode = 400 ∧
     (createOrder [] exSubReq "u1" "m" exGwSucceeded exSubGwThrows 7).resp.success = false) :=
  ⟨(c7_amended_gateway_error_handling [] exOneTimeReq "u1" "m" exGwThrows exSubGwOk 7
      { kind := .cardError, message := "Your card was declined",
        code := some "card_declined", declineCode := some "generic_decline" }
      { kind := .invalidRequest, message := "No such price" } rfl).1 rfl rfl,
   (c7_amended_gateway_error_handling [] exSubReq "u1" "m" exGwSucceeded exSubGwThrows 7
      { kind := .cardError, message := "Your card was declined",
        code := some "card_declined", declineCode := some "generic_decline" }
      { kind := .invalidRequest, message := "No such price" } rfl).2 rfl rfl⟩

/-! ## Claim C2 -/

/-- C2 counterexample: re-delivering the same `invoice.payment_succeeded`
event with `billing_reason = subscription_cycle` does NOT reproduce the state
of a single delivery — the second delivery spawns another cycle order (store
grows from 2 to 3 records) and appends another paymentHistory entry, since
the handler has no idempotency guard. -/
theorem c2_counterexample :
    handleStripeWebhook (handleStripeWebhook [exAnchor] (.invoicePaid exCycleInvoice) 5)
        (.invoicePaid exCycleInvoice) 5 ≠
      handleStripeWebhook [exAnchor] (.invoicePaid exCycleInvoice) 5 ∧
    (handleStripeWebhook [exAnchor] (.invoicePaid exCycleInvoice) 5).length = 2 ∧
    (handleStripeWebhook (handleStripeWebhook [exAnchor] (.invoicePaid exCycleInvoice) 5)
        (.invoicePaid exCycleInvoice) 5).length = 3 := by
  refine ⟨?_, ?_, ?_⟩ <;> decide

/-- C2 (amended): of the six webhook handlers only the one-time
payment-succeeded handler is idempotent (applying it twice equals once for
every store); each of the other five changes the store again on re-delivery,
appending duplicate statusHistory/paymentHistory entries — and a re-delivered
renewal invoice additionally spawns another cycle order. -/
theorem c2_amended_idempotency (s : Store) (pi : StripePaymentIntent) (n nn : Nat) :
    handlePaymentIntentSucceeded (handlePaymentIntentSucceeded s pi n) pi nn =
      handlePaymentIntentSucceeded s pi n ∧
    handleInvoicePaymentSucceeded (handleInvoicePaymentSucceeded [exAnchor] exCycleInvoice 5)
        exCycleInvoice 5 ≠ handleInvoicePaymentSucceeded [exAnchor] exCycleInvoice 5 ∧
    handleInvoicePaymentSucceeded (handleInvoicePaymentSucceeded [exAnchor] exInitialInvoice 5)
        exInitialInvoice 5 ≠ handleInvoicePaymentSucceeded [exAnchor] exInitialInvoice 5 ∧
    handleInvoicePaymentFailed (handleInvoicePaymentFailed [exAnchor] (some "sub_1") 5)
        (some "sub_1") 5 ≠ handleInvoicePaymentFailed [exAnchor] (some "sub_1") 5 ∧
    handleSubscriptionDeleted (handleSubscriptionDeleted [exAnchor] "sub_1" 5) "sub_1" 5 ≠
      handleSubscriptionDeleted [exAnchor] "sub_1" 5 ∧
    handlePaymentIntentFailed (handlePaymentIntentFailed [exPaidOrder] exPiFailed 5)
        exPiFailed 5 ≠ handlePaymentIntentFailed [exPaidOrder] exPiFailed 5 ∧
    handlePaymentIntentCanceled (handlePaymentIntentCanceled [exPaidOrder] exPiFailed 5)
        exPiFailed 5 ≠ handlePaymentIntentCanceled [exPaidOrder] exPiFailed 5 := by
  refine ⟨handlePaymentIntentSucceeded_pair s pi n nn, ?_, ?_, ?_, ?_, ?_, ?_⟩
  · decide
  · intro h
    have h2 := congrArg (List.map (fun o => o.paymentHistory.length)) h
    exact absurd h2 (by decide)
  · decide
  · decide
  · decide
  · decide

/-! ## Claim C4 -/

theorem eq_of_mem_nodup_id {s : Store} (hnd : idsNodup s) {a b : Order}
    (ha : a ∈ s) (hb : b ∈ s) (hid : a.id = b.id) : a = b :=
  List.inj_on_of_nodup_map hnd ha hb hid

theorem map_id_saveOrder (s : Store) (u : Order) :
    (saveOrder s u).map Order.id = s.map Order.id := by
  rw [saveOrder, List.map_map]
  apply List.map_congr_left
  intro a _
  by_cases h : a.id = u.id
  · simp [Function.comp, h]
  · simp [Function.comp, h]

theorem idsNodup_saveOrder {s : Store} (u : Order) (hnd : idsNodup s) :
    idsNodup (saveOrder s u) := by
  rw [idsNodup, map_id_saveOrder]; exact hnd

theorem freshId_not_mem {s : Store} : freshId s ∉ s.map Order.id := by
  intro h
  obtain ⟨o, ho, hid⟩ := List.mem_map.mp h
  have := id_lt_freshId ho
  omega

theorem idsNodup_append_fresh {s : Store} {o : Order} (hnd : idsNodup s)
    (h : o.id = freshId s) : idsNodup (s ++ [o]) := by
  rw [idsNodup, List.map_append]
  simp only [List.map_cons, List.map_nil]
  rw [List.nodup_append]
  refine ⟨hnd, List.nodup_singleton _, ?_⟩
  intro x hx hx1
  simp only [List.mem_singleton] at hx1
  subst hx1
  rw [h] at hx
  exact freshId_not_mem hx

theorem preserve_saveOrder_match {s : Store} (hnd : idsNodup s) {o0 u : Order}
    (h0 : o0 ∈ s) (hid : u.id = o0.id)
    (hcy : o0.currentBillingCycle ≤ u.currentBillingCycle) :
    ∀ o ∈ s, ∃ o2 ∈ saveOrder s u, o2.id = o.id ∧
      o.currentBillingCycle ≤ o2.currentBillingCycle := by
  intro o ho
  by_cases h : o.id = u.id
  · have heq : o = o0 := eq_of_mem_nodup_id hnd ho h0 (h.trans hid)
    subst heq
    exact ⟨u, List.mem_map.mpr ⟨o, ho, by simp [h]⟩, by rw [h], hcy⟩
  · exact ⟨o, List.mem_map.mpr ⟨o, ho, by simp [h]⟩, rfl, le_refl _⟩

theorem preserve_saveOrder_append_match {s : Store} (hnd : idsNodup s)
    {o0 u nw : Order} (h0 : o0 ∈ s) (hid : u.id = o0.id)
    (hcy : o0.currentBillingCycle ≤ u.currentBillingCycle) :
    ∀ o ∈ s, ∃ o2 ∈ saveOrder (s ++ [nw]) u, o2.id = o.id ∧
      o.currentBillingCycle ≤ o2.currentBillingCycle := by
  intro o ho
  by_cases h : o.id = u.id
  · have heq : o = o0 := eq_of_mem_nodup_id hnd ho h0 (h.trans hid)
    subst heq
    exact ⟨u, List.mem_map.mpr ⟨o, List.mem_append_left _ ho, by simp [h]⟩,
      by rw [h], hcy⟩
  · exact ⟨o, List.mem_map.mpr ⟨o, List.mem_append_left _ ho, by simp [h]⟩,
      rfl, le_refl _⟩

theorem preserve_append_new {s : Store} (nw : Order) :
    ∀ o ∈ s, ∃ o2 ∈ s ++ [nw], o2.id = o.id ∧
      o.currentBillingCycle ≤ o2.currentBillingCycle :=
  fun o ho => ⟨o, List.mem_append_left _ ho, rfl, le_refl _⟩

theorem preserve_saveOrder_append_new {s : Store} {nw u : Order}
    (hfu : u.id = nw.id) (hf : nw.id = freshId s) :
    ∀ o ∈ s, ∃ o2 ∈ saveOrder (s ++ [nw]) u, o2.id = o.id ∧
      o.currentBillingCycle ≤ o2.currentBillingCycle := by
  intro o ho
  have hne : ¬ o.id = u.id := by
    have := id_lt_freshId ho
    rw [hfu, hf]
    omega
  exact ⟨o, List.mem_map.mpr ⟨o, List.mem_append_left _ ho, by simp [hne]⟩,
    rfl, le_refl _⟩

theorem webhook_preserve (s : Store) (e : WebhookEvent) (now : Nat)
    (hnd : idsNodup s) :
    ∀ o ∈ s, ∃ o2 ∈ handleStripeWebhook s e now, o2.id = o.id ∧
      o.currentBillingCycle ≤ o2.currentBillingCycle := by
  intro o ho
  cases e with
  | piSucceeded pi =>
    simp only [handleStripeWebhook, handlePaymentIntentSucceeded]
    cases hb : pi.metaOrderId.bind (findById s) with
    | none => exact ⟨o, ho, rfl, le_refl _⟩
    | some o0 =>
      have h0 : o0 ∈ s := by
        cases hm : pi.metaOrderId with
        | none => rw [hm] at hb; cases hb
        | some oid => rw [hm] at hb; exact mem_of_findById hb
      by_cases hp : o0.isPaid
      · simp only [hp, if_true]
        exact ⟨o, ho, rfl, le_refl _⟩
      · simp only [hp, if_false, Bool.false_eq_true]
        refine preserve_saveOrder_match hnd h0 ?_ ?_ o ho
        · rfl
        · exact le_refl _
  | piFailed pi =>
    simp only [handleStripeWebhook, handlePaymentIntentFailed]
    cases hb : pi.metaOrderId.bind (findById s) with
    | none => exact ⟨o, ho, rfl, le_refl _⟩
    | some o0 =>
      have h0 : o0 ∈ s := by
        cases hm : pi.metaOrderId with
        | none => rw [hm] at hb; cases hb
        | some oid => rw [hm] at hb; exact mem_of_findById hb
      refine preserve_saveOrder_match hnd h0 ?_ ?_ o ho
      · rfl
      · exact le_refl _
  | piCanceled pi =>
    simp only [handleStripeWebhook, handlePaymentIntentCanceled]
    cases hb : pi.metaOrderId.bind (findById s) with
    | none => exact ⟨o, ho, rfl, le_refl _⟩
    | some o0 =>
      have h0 : o0 ∈ s := by
        cases hm : pi.metaOrderId with
        | none => rw [hm] at hb; cases hb
        | some oid => rw [hm] at hb; exact mem_of_findById hb
      refine preserve_saveOrder_match hnd h0 ?_ ?_ o ho
      · rfl
      · exact le_refl _
  | invoicePaid inv =>
    simp only [handleStripeWebhook, handleInvoicePaymentSucceeded]
    cases hb : inv.subscription.bind (findBySubId s) with
    | none => exact ⟨o, ho, rfl, le_refl _⟩
    | some o0 =>
      have h0 : o0 ∈ s := by
        cases hm : inv.subscription with
        | none => rw [hm] at hb; cases hb
        | some sid => rw [hm] at hb; exact (findBySubId_props hb).2
      by_cases hiss : o0.isSubscription
      · simp only [hiss, if_true]
        by_cases hbr : inv.billingReason = "subscription_cycle"
        · rw [if_pos hbr]
          refine preserve_saveOrder_append_match hnd h0 ?_ ?_ o ho
          · rfl
          · exact Nat.le_succ _
        · rw [if_neg hbr]
          refine preserve_saveOrder_match hnd h0 ?_ ?_ o ho
          · rfl
          · exact le_refl _
      · simp only [hiss, Bool.false_eq_true, if_false]
        exact ⟨o, ho, rfl, le_refl _⟩
  | invoiceFailed subId =>
    simp only [handleStripeWebhook, handleInvoicePaymentFailed]
    cases hb : subId.bind (findBySubId s) with
    | none => exact ⟨o, ho, rfl, le_refl _⟩
    | some o0 =>
      have h0 : o0 ∈ s := by
        cases hm : subId with
        | none => rw [hm] at hb; cases hb
        | some sid => rw [hm] at hb; exact (findBySubId_props hb).2
      by_cases hiss : o0.isSubscription
      · simp only [hiss, if_true]
        refine preserve_saveOrder_match hnd h0 ?_ ?_ o ho
        · rfl
        · exact le_refl _
      · simp only [hiss, Bool.false_eq_true, if_false]
        exact ⟨o, ho, rfl, le_refl _⟩
  | subDeleted subId =>
    simp only [handleStripeWebhook, handleSubscriptionDeleted]
    cases hb : findBySubId s subId with
    | none => exact ⟨o, ho, rfl, le_refl _⟩
    | some o0 =>
      have h0 : o0 ∈ s := (findBySubId_props hb).2
      by_cases hiss : o0.isSubscription
      · simp only [hiss, if_true]
        refine preserve_saveOrder_match hnd h0 ?_ ?_ o ho
        · rfl
        · exact le_refl _
      · simp only [hiss, Bool.false_eq_true, if_false]
        exact ⟨o, ho, rfl, le_refl _⟩
  | other t =>
    exact ⟨o, ho, rfl, le_refl _⟩

theorem create_preserve (s : Store) (req : CreateOrderRequest) (uid mail : String)
    (g1 : OneTimeGateway) (g2 : SubGateway) (now : Nat) :
    ∀ o ∈ s, ∃ o2 ∈ (createOrder s req uid mail g1 g2 now).store, o2.id = o.id ∧
      o.currentBillingCycle ≤ o2.currentBillingCycle := by
  intro o ho
  cases hv : validateCreateOrder req with
  | some m =>
    simp only [createOrder, hv]
    exact ⟨o, ho, rfl, le_refl _⟩
  | none =>
    simp only [createOrder, hv]
    by_cases hsub : req.isSubscription
    · simp only [hsub, if_true, createSubscriptionOrder]
      cases hg : g2 (subscriptionPriceData req) with
      | error e => exact ⟨o, ho, rfl, le_refl _⟩
      | ok g =>
        simp only []
        refine preserve_saveOrder_append_new ?_ ?_ o ho
        · rfl
        · rfl
    · simp only [hsub, Bool.false_eq_true, if_false, createOneTimeOrder,
        pendingOneTimeOrder_id]
      cases hg : g1 (oneTimePaymentIntentParams req (freshId s)) with
      | error e => exact preserve_append_new _ o ho
      | ok pi =>
        simp only []
        by_cases h1 : pi.status = "succeeded"
        · rw [if_pos h1]
          refine preserve_saveOrder_append_new ?_ ?_ o ho
          · rfl
          · rfl
        · rw [if_neg h1]
          by_cases h2 : pi.status = "requires_action"
          · rw [if_pos h2]
            refine preserve_saveOrder_append_new ?_ ?_ o ho
            · rfl
            · rfl
          · rw [if_neg h2]
            refine preserve_saveOrder_append_new ?_ ?_ o ho
            · rfl
            · rfl

theorem coreStep_preserve (s : Store) (ev : CoreEvent) (now : Nat)
    (hnd : idsNodup s) :
    ∀ o ∈ s, ∃ o2 ∈ coreStep s ev now, o2.id = o.id ∧
      o.currentBillingCycle ≤ o2.currentBillingCycle := by
  cases ev with
  | webhook e => exact webhook_preserve s e now hnd
  | create req uid mail g1 g2 => exact create_preserve s req uid mail g1 g2 now

theorem coreStep_idsNodup (s : Store) (ev : CoreEvent) (now : Nat)
    (hnd : idsNodup s) : idsNodup (coreStep s ev now) := by
  cases ev with
  | webhook e =>
    cases e with
    | piSucceeded pi =>
      simp only [coreStep, handleStripeWebhook, handlePaymentIntentSucceeded]
      cases hb : pi.metaOrderId.bind (findById s) with
      | none => exact hnd
      | some o0 =>
        by_cases hp : o0.isPaid
        · simpa [hp] using hnd
        · simp only [hp, if_false, Bool.false_eq_true]
          exact idsNodup_saveOrder _ hnd
    | piFailed pi =>
      simp only [coreStep, handleStripeWebhook, handlePaymentIntentFailed]
      cases hb : pi.metaOrderId.bind (findById s) with
      | none => exact hnd
      | some o0 => exact idsNodup_saveOrder _ hnd
    | piCanceled pi =>
      simp only [coreStep, handleStripeWebhook, handlePaymentIntentCanceled]
      cases hb : pi.metaOrderId.bind (findById s) with
      | none => exact hnd
      | some o0 => exact idsNodup_saveOrder _ hnd
    | invoicePaid inv =>
      simp only [coreStep, handleStripeWebhook, handleInvoicePaymentSucceeded]
      cases hb : inv.subscription.bind (findBySubId s) with
      | none => exact hnd
      | some o0 =>
        by_cases hiss : o0.isSubscription
        · simp only [hiss, if_true]
          by_cases hbr : inv.billingReason = "subscription_cycle"
          · rw [if_pos hbr]
            exact idsNodup_saveOrder _ (idsNodup_append_fresh hnd rfl)
          · rw [if_neg hbr]
            exact idsNodup_saveOrder _ hnd
        · simpa [hiss] using hnd
    | invoiceFailed subId =>
      simp only [coreStep, handleStripeWebhook, handleInvoicePaymentFailed]
      cases hb : subId.bind (findBySubId s) with
      | none => exact hnd
      | some o0 =>
        by_cases hiss : o0.isSubscription
        · simp only [hiss, if_true]
          exact idsNodup_saveOrder _ hnd
        · simpa [hiss] using hnd
    | subDeleted subId =>
      simp only [coreStep, handleStripeWebhook, handleSubscriptionDeleted]
      cases hb : findBySubId s subId with
      | none => exact hnd
      | some o0 =>
        by_cases hiss : o0.isSubscription
        · simp only [hiss, if_true]
          exact idsNodup_saveOrder _ hnd
        · simpa [hiss] using hnd
    | other t => exact hnd
  | create req uid mail g1 g2 =>
    cases hv : validateCreateOrder req with
    | some m => simpa [coreStep, createOrder, hv] using hnd
    | none =>
      simp only [coreStep, createOrder, hv]
      by_cases hsub : req.isSubscription
      · simp only [hsub, if_true, createSubscriptionOrder]
        cases hg : g2 (subscriptionPriceData req) with
        | error e => exact hnd
        | ok g =>
          simp only []
          exact idsNodup_saveOrder _ (idsNodup_append_fresh hnd rfl)
      · simp only [hsub, Bool.false_eq_true, if_false, createOneTimeOrder,
          pendingOneTimeOrder_id]
        cases hg : g1 (oneTimePaymentIntentParams req (freshId s)) with
        | error e => exact idsNodup_append_fresh hnd rfl
        | ok pi =>
          simp only []
          by_cases h1 : pi.status = "succeeded"
          · rw [if_pos h1]
            exact idsNodup_saveOrder _ (idsNodup_append_fresh hnd rfl)
          · rw [if_neg h1]
            by_cases h2 : pi.status = "requires_action"
            · rw [if_pos h2]
              exact idsNodup_saveOrder _ (idsNodup_append_fresh hnd rfl)
            · rw [if_neg h2]
              exact idsNodup_saveOrder _ (idsNodup_append_fresh hnd rfl)

theorem runEvents_preserve (evs : List (CoreEvent × Nat)) :
    ∀ (s : Store), idsNodup s → ∀ o ∈ s, ∃ o2 ∈ runEvents s evs, o2.id = o.id ∧
      o.currentBillingCycle ≤ o2.currentBillingCycle := by
  induction evs with
  | nil =>
    intro s hnd o ho
    exact ⟨o, ho, rfl, le_refl _⟩
  | cons en rest ih =>
    intro s hnd o ho
    obtain ⟨o1, ho1, hid1, hc1⟩ := coreStep_preserve s en.1 en.2 hnd o ho
    obtain ⟨o2, ho2, hid2, hc2⟩ := ih (coreStep s en.1 en.2)
      (coreStep_idsNodup s en.1 en.2 hnd) o1 ho1
    exact ⟨o2, ho2, hid2.trans hid1, le_trans hc1 hc2⟩

theorem invoicePaid_appends_one_entry (s : Store) (inv : StripeInvoice)
    (now : Nat) (sid : String) (o : Order)
    (hsub : inv.subscription = some sid)
    (hfind : findBySubId s sid = some o)
    (hiss : o.isSubscription = true) :
    ∃ o2 ∈ handleInvoicePaymentSucceeded s inv now, o2.id = o.id ∧
      (∃ e, o2.paymentHistory = o.paymentHistory ++ [e] ∧
        e.status = "succeeded" ∧ e.billingCycle = o.currentBillingCycle + 1) ∧
      o.currentBillingCycle ≤ o2.currentBillingCycle := by
  have ho : o ∈ s := (findBySubId_props hfind).2
  simp only [handleInvoicePaymentSucceeded, hsub, Option.some_bind, hfind, hiss,
    if_true]
  by_cases hbr : inv.billingReason = "subscription_cycle"
  · rw [if_pos hbr]
    refine ⟨_, List.mem_map.mpr ⟨o, List.mem_append_left _ ho, if_pos rfl⟩,
      rfl, ⟨_, rfl, rfl, rfl⟩, Nat.le_succ _⟩
  · rw [if_neg hbr]
    refine ⟨_, List.mem_map.mpr ⟨o, ho, if_pos rfl⟩,
      rfl, ⟨_, rfl, rfl, rfl⟩, le_refl _⟩

/-- C4 counterexample: one delivery of a renewal invoice to the anchor of a
monthly subscription leaves the spawned cycle order (id 2) — a subscription
order — with `currentBillingCycle = 2` but ZERO succeeded paymentHistory
entries, and the entry appended to the anchor carries `billingCycle = 2`,
not the anchor's `currentBillingCycle` (1) at the time of the payment. -/
theorem c4_counterexample :
    ((handleInvoicePaymentSucceeded [exAnchor] exCycleInvoice 5).map
        (fun o => (o.id, o.isSubscription, o.currentBillingCycle,
          (o.paymentHistory.filter (fun p => p.status == "succeeded")).length))) =
      [(1, true, 2, 2), (2, true, 2, 0)] ∧
    (2 : Nat) ≠ 0 ∧
    ((handleInvoicePaymentSucceeded [exAnchor] exCycleInvoice 5).map
        (fun o => o.paymentHistory.map (fun p => p.billingCycle))) = [[1, 2], []] ∧
    exAnchor.currentBillingCycle = 1 ∧ (2 : Nat) ≠ 1 := by
  refine ⟨?_, ?_, ?_, ?_, ?_⟩ <;> decide

/-- C4 (amended): every recurring-billing payment appends exactly one
paymentHistory entry to the anchor, but the entry's `billingCycle` equals the
anchor's `currentBillingCycle` at the time of the payment PLUS ONE; and
across any sequence of creation and reconciliation events, each order's
`currentBillingCycle` (tracked by id) never decreases. The claimed equality
between `currentBillingCycle` and the number of succeeded payments does not
hold in general (see the counterexample). -/
theorem c4_amended_billing_cycle (s : Store) (inv : StripeInvoice) (now : Nat)
    (evs : List (CoreEvent × Nat)) (sid : String) (o : Order)
    (hnd : idsNodup s)
    (hsub : inv.subscription = some sid)
    (hfind : findBySubId s sid = some o)
    (hiss : o.isSubscription = true) :
    (∃ o2 ∈ handleInvoicePaymentSucceeded s inv now, o2.id = o.id ∧
      (∃ e, o2.paymentHistory = o.paymentHistory ++ [e] ∧
        e.status = "succeeded" ∧ e.billingCycle = o.currentBillingCycle + 1) ∧
      o.currentBillingCycle ≤ o2.currentBillingCycle) ∧
    (∀ x ∈ s, ∃ x2 ∈ runEvents s evs, x2.id = x.id ∧
      x.currentBillingCycle ≤ x2.currentBillingCycle) :=
  ⟨invoicePaid_appends_one_entry s inv now sid o hsub hfind hiss,
   runEvents_preserve evs s hnd⟩

/-- Witness for C4 at the concrete anchor and one renewal delivery. -/
theorem c4_witness :
    (∃ o2 ∈ handleInvoicePaymentSucceeded [exAnchor] exCycleInvoice 5,
      o2.id = exAnchor.id ∧
      (∃ e, o2.paymentHistory = exAnchor.paymentHistory ++ [e] ∧
        e.status = "succeeded" ∧ e.billingCycle = exAnchor.currentBillingCycle + 1) ∧
      exAnchor.currentBillingCycle ≤ o2.currentBillingCycle) ∧
    (∀ x ∈ [exAnchor],
      ∃ x2 ∈ runEvents [exAnchor] [(CoreEvent.webhook (.invoicePaid exCycleInvoice), 5)],
        x2.id = x.id ∧ x.currentBillingCycle ≤ x2.currentBillingCycle) :=
  c4_amended_billing_cycle [exAnchor] exCycleInvoice 5 [(CoreEvent.webhook (.invoicePaid exCycleInvoice), 5)]
    "sub_1" exAnchor (by simp [idsNodup]) rfl rfl rfl

theorem statusInv_congr {a b : Order} (h1 : b.statusHistory = a.statusHistory)
    (h2 : b.status = a.status) : statusInv b = statusInv a := by
  simp [statusInv, h1, h2]

theorem statusInv_applyDeliveredUpdate (o : Order) (c : Bool) (n : Nat) :
    statusInv (applyDeliveredUpdate o c n) = statusInv o := by
  unfold applyDeliveredUpdate
  split <;> rfl

theorem statusInv_applyTrackingUpdates (o : Order) (req : UpdateStatusRequest) :
    statusInv (applyTrackingUpdates o req) = statusInv o := by
  unfold applyTrackingUpdates
  split <;> split <;> (first | rfl | (split <;> rfl))

theorem statusInv_addPaymentToHistory (o : Order) (p : PaymentData) (n : Nat) :
    statusInv (o.addPaymentToHistory p n) = statusInv o := rfl

theorem statusInv_piSucceededUpdate (o : Order) (pi : StripePaymentIntent) (n : Nat) :
    statusInv (piSucceededUpdate o pi n) = true := by
  simp [piSucceededUpdate, statusInv, Order.addStatusToHistory, List.getLast?_concat]

theorem statusInv_cycleOrderFrom (o : Order) (sid : String) (nid n : Nat) :
    statusInv (cycleOrderFrom o sid nid n) = true := by
  simp [cycleOrderFrom, statusInv]

theorem statusInv_pendingOneTimeOrder (req : CreateOrderRequest) (uid : String)
    (nid n : Nat) : statusInv (pendingOneTimeOrder req uid nid n) = true := by
  simp [pendingOneTimeOrder, statusInv]

theorem statusInv_subscriptionAnchorOrder (req : CreateOrderRequest) (uid : String)
    (g : SubGatewayOk) (nid n : Nat) :
    statusInv (subscriptionAnchorOrder req uid g nid n) = true := by
  simp [subscriptionAnchorOrder, statusInv]

theorem statusInv_oneTimeIntentApplied (o : Order) (pi : StripePaymentIntent) :
    statusInv (oneTimeIntentApplied o pi) = statusInv o := rfl

theorem statusInv_oneTimeSucceededUpdate (o1 : Order) (pi : StripePaymentIntent)
    (req : CreateOrderRequest) (uid mail : String) (n : Nat) :
    statusInv (oneTimeSucceededUpdate o1 pi req uid mail n) = true := by
  simp [oneTimeSucceededUpdate, Order.addPaymentToHistory, statusInv,
    List.getLast?_concat]

theorem updateOrderStatus_statusInv (o : Order) (req : UpdateStatusRequest)
    (actor : String) (n : Nat) (ho : statusInv o = true) :
    statusInv (updateOrderStatus o req actor n).1 = true := by
  unfold updateOrderStatus
  cases req.status with
  | none => exact ho
  | some st =>
    simp only []
    split
    · exact ho
    · split
      · exact ho
      · rw [statusInv_applyTrackingUpdates, statusInv_applyDeliveredUpdate]
        exact statusInv_addStatusToHistory o st _ (some actor) n

theorem cancelOrder_statusInv (o : Order) (reason : Option String) (uid : String)
    (admin subOk : Bool) (n : Nat) (ho : statusInv o = true) :
    statusInv (cancelOrder o reason uid admin subOk n).1 = true := by
  unfold cancelOrder
  split
  · exact ho
  · split
    · exact ho
    · exact statusInv_addStatusToHistory _ _ _ _ _

theorem initiateReturn_statusInv (o : Order) (reason uid : String) (n : Nat)
    (ho : statusInv o = true) :
    statusInv (initiateReturn o reason uid n).1 = true := by
  unfold initiateReturn
  split
  · exact ho
  · split
    · exact ho
    · split
      · exact ho
      · exact statusInv_addStatusToHistory _ _ _ _ _

theorem pauseSubscription_statusInv (o : Order) (reason : Option String)
    (uid : String) (ok : Bool) (n : Nat) (ho : statusInv o = true) :
    statusInv (pauseSubscription o reason uid ok n).1 = true := by
  unfold pauseSubscription
  split
  · exact ho
  · split
    · exact ho
    · split
      · exact ho
      · split
        · exact ho
        · exact statusInv_addStatusToHistory _ _ _ _ _

theorem resumeSubscription_statusInv (o : Order) (uid : String) (ok : Bool)
    (n : Nat) (ho : statusInv o = true) :
    statusInv (resumeSubscription o uid ok n).1 = true := by
  unfold resumeSubscription
  split
  · exact ho
  · split
    · exact ho
    · split
      · exact ho
      · split
        · exact ho
        · exact statusInv_addStatusToHistory _ _ _ _ _

theorem cancelSubscription_statusInv (o : Order) (reason : Option String)
    (uid : String) (ok : Bool) (n : Nat) (ho : statusInv o = true) :
    statusInv (cancelSubscription o reason uid ok n).1 = true := by
  unfold cancelSubscription
  split
  · exact ho
  · split
    · exact ho
    · split
      · exact ho
      · split
        · exact ho
        · exact statusInv_addStatusToHistory _ _ _ _ _

theorem confirmStripePayment_statusInv (o : Order) (piId : String)
    (rpi : StripePaymentIntent) (uid mail : String) (n : Nat)
    (ho : statusInv o = true) :
    statusInv (confirmStripePayment o piId rpi uid mail n).1 = true := by
  unfold confirmStripePayment
  split
  · exact ho
  · split
    · exact statusInv_addStatusToHistory _ _ _ _ _
    · exact ho

theorem deleteOrder_statusInv (s : Store) (oid : Nat)
    (hs : ∀ x ∈ s, statusInv x = true) :
    ∀ x ∈ (deleteOrder s oid).1, statusInv x = true := by
  intro x hx
  unfold deleteOrder at hx
  split at hx
  · exact hs x hx
  · split at hx
    · exact hs x hx
    · exact hs x (List.mem_of_mem_eraseP hx)

theorem handlePaymentIntentSucceeded_statusInv (s : Store)
    (pi : StripePaymentIntent) (n : Nat)
    (hs : ∀ x ∈ s, statusInv x = true) :
    ∀ x ∈ handlePaymentIntentSucceeded s pi n, statusInv x = true := by
  intro x hx
  unfold handlePaymentIntentSucceeded at hx
  split at hx
  · exact hs x hx
  · split at hx
    · exact hs x hx
    · rcases mem_saveOrder hx with h | h
      · rw [h]; exact statusInv_piSucceededUpdate _ _ _
      · exact hs x h

theorem handleInvoicePaymentSucceeded_statusInv (s : Store)
    (inv : StripeInvoice) (n : Nat)
    (hs : ∀ x ∈ s, statusInv x = true) :
    ∀ x ∈ handleInvoicePaymentSucceeded s inv n, statusInv x = true := by
  intro x hx
  unfold handleInvoicePaymentSucceeded at hx
  split at hx
  · exact hs x hx
  case _ o ho =>
    obtain ⟨sid, hsid, hfind⟩ := Option.bind_eq_some.1 ho
    have hom : statusInv o = true := hs o (findBySubId_props hfind).2
    split at hx
    · split at hx
      · rcases mem_saveOrder hx with h | h
        · rw [h]
          exact (statusInv_congr rfl rfl).trans
            ((statusInv_addPaymentToHistory o (invoicePaidPaymentData o inv) n).trans hom)
        · rcases List.mem_append.1 h with h2 | h2
          · exact hs x h2
          · rw [List.mem_singleton.1 h2]
            exact statusInv_cycleOrderFrom _ _ _ _
      · rcases mem_saveOrder hx with h | h
        · rw [h]
          exact (statusInv_addPaymentToHistory o (invoicePaidPaymentData o inv) n).trans hom
        · exact hs x h
    · exact hs x hx

theorem handleInvoicePaymentFailed_statusInv (s : Store)
    (subId : Option String) (n : Nat)
    (hs : ∀ x ∈ s, statusInv x = true) :
    ∀ x ∈ handleInvoicePaymentFailed s subId n, statusInv x = true := by
  intro x hx
  unfold handleInvoicePaymentFailed at hx
  split at hx
  · exact hs x hx
  · split at hx
    · rcases mem_saveOrder hx with h | h
      · rw [h]
        exact (statusInv_congr rfl rfl).trans
          (statusInv_addStatusToHistory _ _ _ _ _)
      · exact hs x h
    · exact hs x hx

theorem handleSubscriptionDeleted_statusInv (s : Store) (subId : String)
    (n : Nat) (hs : ∀ x ∈ s, statusInv x = true) :
    ∀ x ∈ handleSubscriptionDeleted s subId n, statusInv x = true := by
  intro x hx
  unfold handleSubscriptionDeleted at hx
  split at hx
  · exact hs x hx
  · split at hx
    · rcases mem_saveOrder hx with h | h
      · rw [h]
        exact (statusInv_congr rfl rfl).trans
          (statusInv_addStatusToHistory _ _ _ _ _)
      · exact hs x h
    · exact hs x hx

theorem handlePaymentIntentFailed_statusInv (s : Store)
    (pi : StripePaymentIntent) (n : Nat)
    (hs : ∀ x ∈ s, statusInv x = true) :
    ∀ x ∈ handlePaymentIntentFailed s pi n, statusInv x = true := by
  intro x hx
  unfold handlePaymentIntentFailed at hx
  split at hx
  · exact hs x hx
  · rcases mem_saveOrder hx with h | h
    · rw [h]
      exact (statusInv_congr rfl rfl).trans
        (statusInv_addStatusToHistory _ _ _ _ _)
    · exact hs x h

theorem handlePaymentIntentCanceled_statusInv (s : Store)
    (pi : StripePaymentIntent) (n : Nat)
    (hs : ∀ x ∈ s, statusInv x = true) :
    ∀ x ∈ handlePaymentIntentCanceled s pi n, statusInv x = true := by
  intro x hx
  unfold handlePaymentIntentCanceled at hx
  split at hx
  · exact hs x hx
  · rcases mem_saveOrder hx with h | h
    · rw [h]
      exact (statusInv_congr rfl rfl).trans
        (statusInv_addStatusToHistory _ _ _ _ _)
    · exact hs x h

theorem webhook_statusInv (s : Store) (e : WebhookEvent) (n : Nat)
    (hs : ∀ x ∈ s, statusInv x = true) :
    ∀ x ∈ handleStripeWebhook s e n, statusInv x = true := by
  cases e with
  | piSucceeded pi => exact handlePaymentIntentSucceeded_statusInv s pi n hs
  | piFailed pi => exact handlePaymentIntentFailed_statusInv s pi n hs
  | piCanceled pi => exact handlePaymentIntentCanceled_statusInv s pi n hs
  | invoicePaid inv => exact handleInvoicePaymentSucceeded_statusInv s inv n hs
  | invoiceFailed subId => exact handleInvoicePaymentFailed_statusInv s subId n hs
  | subDeleted subId => exact handleSubscriptionDeleted_statusInv s subId n hs
  | other t => exact hs

theorem createSubscriptionOrder_statusInv (s : Store) (req : CreateOrderRequest)
    (uid : String) (g2 : SubGateway) (n : Nat)
    (hs : ∀ x ∈ s, statusInv x = true) :
    ∀ x ∈ (createSubscriptionOrder s req uid g2 n).1, statusInv x = true := by
  intro x hx
  unfold createSubscriptionOrder at hx
  split at hx
  · exact hs x hx
  case _ g hg =>
    rcases mem_saveOrder hx with h | h
    · rw [h]
      exact (statusInv_addPaymentToHistory _ _ _).trans
        (statusInv_subscriptionAnchorOrder req uid g (freshId s) n)
    · rcases List.mem_append.1 h with h2 | h2
      · exact hs x h2
      · rw [List.mem_singleton.1 h2]
        exact statusInv_subscriptionAnchorOrder req uid g (freshId s) n

theorem createOneTimeOrder_statusInv (s : Store) (req : CreateOrderRequest)
    (uid mail : String) (g1 : OneTimeGateway) (n : Nat)
    (hs : ∀ x ∈ s, statusInv x = true)
    (hsafe : ∀ pi, g1 (oneTimePaymentIntentParams req (freshId s)) = .ok pi →
      pi.status = "succeeded" ∨ pi.status = "requires_action") :
    ∀ x ∈ (createOneTimeOrder s req uid mail g1 n).1, statusInv x = true := by
  intro x hx
  simp only [createOneTimeOrder] at hx
  split at hx
  · rcases List.mem_append.1 hx with h | h
    · exact hs x h
    · rw [List.mem_singleton.1 h]
      exact statusInv_pendingOneTimeOrder req uid (freshId s) n
  case _ pi hg =>
    rcases hsafe pi hg with h1 | h1
    · rw [if_pos h1] at hx
      rcases mem_saveOrder hx with h | h
      · rw [h]
        exact statusInv_oneTimeSucceededUpdate _ pi req uid mail n
      · rcases List.mem_append.1 h with h2 | h2
        · exact hs x h2
        · rw [List.mem_singleton.1 h2]
          exact statusInv_pendingOneTimeOrder req uid (freshId s) n
    · rw [if_neg (by simp [h1]), if_pos h1] at hx
      rcases mem_saveOrder hx with h | h
      · rw [h]
        exact (statusInv_oneTimeIntentApplied _ pi).trans
          (statusInv_pendingOneTimeOrder req uid (freshId s) n)
      · rcases List.mem_append.1 h with h2 | h2
        · exact hs x h2
        · rw [List.mem_singleton.1 h2]
          exact statusInv_pendingOneTimeOrder req uid (freshId s) n

theorem createOrder_statusInv (s : Store) (req : CreateOrderRequest)
    (uid mail : String) (g1 : OneTimeGateway) (g2 : SubGateway) (n : Nat)
    (hs : ∀ x ∈ s, statusInv x = true)
    (hsafe : ∀ pi, g1 (oneTimePaymentIntentParams req (freshId s)) = .ok pi →
      pi.status = "succeeded" ∨ pi.status = "requires_action") :
    ∀ x ∈ (createOrder s req uid mail g1 g2 n).store, statusInv x = true := by
  intro x hx
  unfold createOrder at hx
  split at hx
  · exact hs x hx
  · split at hx
    · split at hx
      case _ heq =>
        exact createSubscriptionOrder_statusInv s req uid g2 n hs x
          (by rw [heq]; exact hx)
      case _ heq =>
        exact createSubscriptionOrder_statusInv s req uid g2 n hs x
          (by rw [heq]; exact hx)
    · split at hx
      case _ heq =>
        exact createOneTimeOrder_statusInv s req uid mail g1 n hs hsafe x
          (by rw [heq]; exact hx)
      case _ heq =>
        exact createOneTimeOrder_statusInv s req uid mail g1 n hs hsafe x
          (by rw [heq]; exact hx)

/-- Claim C1 counterexample: the invariant "status equals the last
statusHistory entry's status" is violated by the declined branch of
one-time order creation — the surviving order has a `Payment_Failed`
last history entry while `order.status` is still `Pending` (part_003
lines 687-695 push to `statusHistory` without updating `status`), so
`statusInv` is false on the resulting store's only order. -/
theorem c1_counterexample :
    ((createOrder [] exOneTimeReq "u1" "m" exGwDeclined exSubGwOk 7).store.map
        statusInv) = [false] := by
  decide

/-- Claim C1 (amended): for every store and order satisfying the status
invariant, every completed core operation preserves it — order creation
(provided the one-time gateway never reports a synchronous status other
than `succeeded`/`requires_action`, since the declined branch breaks the
invariant, see the counterexample), every webhook handler, order
deletion, admin status update, cancellation, return initiation,
subscription pause/resume/cancel, and synchronous payment confirmation:
afterwards each affected order's `statusHistory` is non-empty and its
`status` equals the last history entry's status. -/
theorem c1_amended_status_invariant (s : Store) (o : Order)
    (hs : ∀ x ∈ s, statusInv x = true) (ho : statusInv o = true) :
    (∀ (req : CreateOrderRequest) (uid mail : String) (g1 : OneTimeGateway)
        (g2 : SubGateway) (n : Nat),
      (∀ pi, g1 (oneTimePaymentIntentParams req (freshId s)) = .ok pi →
        pi.status = "succeeded" ∨ pi.status = "requires_action") →
      ∀ x ∈ (createOrder s req uid mail g1 g2 n).store, statusInv x = true) ∧
    (∀ (e : WebhookEvent) (n : Nat),
      ∀ x ∈ handleStripeWebhook s e n, statusInv x = true) ∧
    (∀ (oid : Nat), ∀ x ∈ (deleteOrder s oid).1, statusInv x = true) ∧
    (∀ (req : UpdateStatusRequest) (actor : String) (n : Nat),
      statusInv (updateOrderStatus o req actor n).1 = true) ∧
    (∀ (reason : Option String) (uid : String) (admin subOk : Bool) (n : Nat),
      statusInv (cancelOrder o reason uid admin subOk n).1 = true) ∧
    (∀ (reason uid : String) (n : Nat),
      statusInv (initiateReturn o reason uid n).1 = true) ∧
    (∀ (reason : Option String) (uid : String) (ok : Bool) (n : Nat),
      statusInv (pauseSubscription o reason uid ok n).1 = true) ∧
    (∀ (uid : String) (ok : Bool) (n : Nat),
      statusInv (resumeSubscription o uid ok n).1 = true) ∧
    (∀ (reason : Option String) (uid : String) (ok : Bool) (n : Nat),
      statusInv (cancelSubscription o reason uid ok n).1 = true) ∧
    (∀ (piId : String) (rpi : StripePaymentIntent) (uid mail : String) (n : Nat),
      statusInv (confirmStripePayment o piId rpi uid mail n).1 = true) := by
  refine ⟨?_, ?_, ?_, ?_, ?_, ?_, ?_, ?_, ?_, ?_⟩
  · intro req uid mail g1 g2 n hsafe
    exact createOrder_statusInv s req uid mail g1 g2 n hs hsafe
  · intro e n
    exact webhook_statusInv s e n hs
  · intro oid
    exact deleteOrder_statusInv s oid hs
  · intro req actor n
    exact updateOrderStatus_statusInv o req actor n ho
  · intro reason uid admin subOk n
    exact cancelOrder_statusInv o reason uid admin subOk n ho
  · intro reason uid n
    exact initiateReturn_statusInv o reason uid n ho
  · intro reason uid ok n
    exact pauseSubscription_statusInv o reason uid ok n ho
  · intro uid ok n
    exact resumeSubscription_statusInv o uid ok n ho
  · intro reason uid ok n
    exact cancelSubscription_statusInv o reason uid ok n ho
  · intro piId rpi uid mail n
    exact confirmStripePayment_statusInv o piId rpi uid mail n ho

/-- Claim C1 witness: the amended invariant-preservation theorem applied
to the concrete single-order store `[exPaidOrder]`. -/
theorem c1_witness :
    (∀ x ∈ ([exPaidOrder] : Store), statusInv x = true) ∧
    statusInv exPaidOrder = true ∧
    (∀ (reason : Option String) (uid : String) (admin subOk : Bool) (n : Nat),
      statusInv (cancelOrder exPaidOrder reason uid admin subOk n).1 = true) ∧
    (∀ (e : WebhookEvent) (n : Nat),
      ∀ x ∈ handleStripeWebhook [exPaidOrder] e n, statusInv x = true) := by
  have hs : ∀ x ∈ ([exPaidOrder] : Store), statusInv x = true := by
    intro x hx
    rw [List.mem_singleton.1 hx]
    decide
  have ho : statusInv exPaidOrder = true := by decide
  exact ⟨hs, ho,
    (c1_amended_status_invariant [exPaidOrder] exPaidOrder hs ho).2.2.2.2.1,
    (c1_amended_status_invariant [exPaidOrder] exPaidOrder hs ho).2.1⟩
